import Mathlib

/-!
Shallow embedding of the MONAD-MCP repository (a Python MCP server exposing
blockchain-data tools) and proofs about its specification claims.

The embedding models Python JSON-like values (`PyVal`), Python exceptions
(`PyExc`), and translates the service functions of
`app/core/utils.py`, `app/services/monad_service.py`,
`app/services/zerion_service.py`, `app/services/magic_eden_service.py` and
`app/services/insight_service.py` into Lean functions.  Remote effects
(HTTP calls, RPC calls, address checksumming, environment variables) are
passed in as explicit oracle arguments; `while` loops over remote pagination
are given an explicit fuel argument and return `Option` (`Option.none`
meaning the loop had not finished within the given fuel).
-/

set_option maxHeartbeats 1000000

namespace MonadMCP

/-- Python JSON-like values as they appear in this code base: `None`, bools,
ints, floats (opaque tags, never computed with), strings, `HexBytes`
(carrying the raw byte list), lists, and string-keyed mappings. -/
inductive PyVal where
  | none : PyVal
  | bool (b : Bool) : PyVal
  | int (n : Int) : PyVal
  | float (tag : Nat) : PyVal
  | str (s : String) : PyVal
  | hexBytes (bs : List Nat) : PyVal
  | list (xs : List PyVal) : PyVal
  | map (es : List (String × PyVal)) : PyVal

/-- Python exceptions relevant to this code base.  The four "typed" errors
the services are supposed to raise are `valueError`, `typeError`,
`fileNotFound` and `connectionError`; `httpStatusError` and `requestError`
model the two `httpx` exception classes, and `other` models any further
exception class (`NameError`, `AttributeError`, `KeyError`, ...). -/
inductive PyExc where
  | valueError (msg : String)
  | typeError (msg : String)
  | fileNotFound (msg : String)
  | connectionError (msg : String)
  | httpStatusError (code : Nat)
  | requestError (msg : String)
  | other (cls msg : String)
deriving DecidableEq, Repr

/-- An escaped exception is "typed" when it is one of the four error classes
the spec allows a public service operation to raise. -/
def PyExc.isTyped : PyExc → Bool
  | .valueError _ => true
  | .typeError _ => true
  | .fileNotFound _ => true
  | .connectionError _ => true
  | _ => false

@[simp] theorem isTyped_valueError (m : String) : (PyExc.valueError m).isTyped = true := rfl

@[simp] theorem isTyped_typeError (m : String) : (PyExc.typeError m).isTyped = true := rfl

@[simp] theorem isTyped_fileNotFound (m : String) : (PyExc.fileNotFound m).isTyped = true := rfl

@[simp] theorem isTyped_connectionError (m : String) :
    (PyExc.connectionError m).isTyped = true := rfl

/-- Python truthiness for the values of `PyVal`: `None`, `False`, `0`,
empty strings, empty byte strings, empty lists and empty dicts are falsy.
Floats are modelled as opaque and treated as truthy (the code only ever
truth-tests remote URL / list / dict fields). -/
def pyTruthy : PyVal → Bool
  | .none => false
  | .bool b => b
  | .int n => n != 0
  | .float _ => true
  | .str s => s != ""
  | .hexBytes bs => !bs.isEmpty
  | .list xs => !xs.isEmpty
  | .map es => !es.isEmpty

/-- Lookup of a key in a Python dict modelled as an association list. -/
def pyLookup (es : List (String × PyVal)) (k : String) : Option PyVal :=
  match es with
  | [] => Option.none
  | (k', v) :: rest => if k' = k then Option.some v else pyLookup rest k

/-- Python `d.get(k, default)`: on a mapping returns the entry or the
default; on any other value raises `AttributeError` (no `.get` attribute),
as happens in the services when a remote JSON body is not an object. -/
def pyGet (v : PyVal) (k : String) (dflt : PyVal) : Except PyExc PyVal :=
  match v with
  | .map es =>
      match pyLookup es k with
      | Option.some w => .ok w
      | Option.none => .ok dflt
  | _ => .error (.other "AttributeError" ("object has no attribute get: " ++ k))

/-- Python membership test `k in d` for a dict. -/
def pyHasKey (v : PyVal) (k : String) : Bool :=
  match v with
  | .map es => (pyLookup es k).isSome
  | _ => false

/-- ASCII lowercasing of a string, modelling Python `str.lower()` on the
ASCII identifiers this code base compares. -/
def pyLowerStr (s : String) : String :=
  String.mk (s.data.map Char.toLower)

/-- Python `x.lower()` as used on remote JSON fields: succeeds on strings,
raises `AttributeError` on every other value. -/
def pyLower (v : PyVal) : Except PyExc String :=
  match v with
  | .str s => .ok (pyLowerStr s)
  | _ => .error (.other "AttributeError" "object has no attribute lower")

/-- Hex digit character for a value below 16. -/
def hexDigit (n : Nat) : Char :=
  if n < 10 then Char.ofNat (48 + n) else Char.ofNat (87 + n % 16)

/-- Hex rendering of one byte, two lowercase digits. -/
def hexByte (b : Nat) : List Char :=
  [hexDigit (b / 16 % 16), hexDigit (b % 16)]

/-- The string `HexBytes(bs).hex()` produces: `0x` followed by two lowercase
hex digits per byte. -/
def hexOfBytes (bs : List Nat) : String :=
  "0x" ++ String.mk (bs.flatMap hexByte)

/-- Python iteration `for x in v` / `list.extend(v)`: lists yield their
items, strings their one-character substrings, dicts their keys, byte
strings their byte values; `None`, bools, ints and floats are not iterable
and raise `TypeError`. -/
def pyIter (v : PyVal) : Except PyExc (List PyVal) :=
  match v with
  | .list xs => .ok xs
  | .str s => .ok (s.data.map (fun c => .str (String.mk [c])))
  | .map es => .ok (es.map (fun e => .str e.1))
  | .hexBytes bs => .ok (bs.map (fun b => .int b))
  | _ => .error (.typeError "object is not iterable")

/-! ## `app/core/utils.py` : `attrdict_to_dict`

The normalizer checks, in order: `HexBytes` (replaced by its hex string),
`Mapping` (transformed per value, keys kept), `list` (transformed per item),
`int` strictly greater than `2 ** 53` (replaced by its decimal string);
every other value is returned unchanged.  The recursion over the nested
lists is written with two mutual helpers. -/

mutual

/-- Translation of `attrdict_to_dict` from `app/core/utils.py`. -/
def attrdict_to_dict : PyVal → PyVal
  | .hexBytes bs => .str (hexOfBytes bs)
  | .map es => .map (attrdictEntries es)
  | .list xs => .list (attrdictItems xs)
  | .int n => if n > 2 ^ 53 then .str (toString n) else .int n
  | v => v

/-- Elementwise transform of a mapping's entries (`attrdict_to_dict` on each
value, key unchanged). -/
def attrdictEntries : List (String × PyVal) → List (String × PyVal)
  | [] => []
  | (k, v) :: rest => (k, attrdict_to_dict v) :: attrdictEntries rest

/-- Elementwise transform of a list's items. -/
def attrdictItems : List PyVal → List PyVal
  | [] => []
  | v :: rest => attrdict_to_dict v :: attrdictItems rest

end

mutual

/-- Every `int` node of a value satisfies the given predicate (decidably). -/
def allInts (p : Int → Bool) : PyVal → Bool
  | .map es => allIntsEntries p es
  | .list xs => allIntsItems p xs
  | .int n => p n
  | _ => true

/-- List-of-entries companion of `allInts`. -/
def allIntsEntries (p : Int → Bool) : List (String × PyVal) → Bool
  | [] => true
  | (_, v) :: rest => allInts p v && allIntsEntries p rest

/-- List-of-items companion of `allInts`. -/
def allIntsItems (p : Int → Bool) : List PyVal → Bool
  | [] => true
  | v :: rest => allInts p v && allIntsItems p rest

end

/-! ## Lemmas about `attrdict_to_dict` -/

/-- Entry transform is the elementwise map. -/
theorem attrdictEntries_eq_map (es : List (String × PyVal)) :
    attrdictEntries es = es.map (fun e => (e.1, attrdict_to_dict e.2)) := by
  induction es with
  | nil => rfl
  | cons e rest ih => cases e; simp [attrdictEntries, ih]

/-- Item transform is the elementwise map. -/
theorem attrdictItems_eq_map (xs : List PyVal) :
    attrdictItems xs = xs.map attrdict_to_dict := by
  induction xs with
  | nil => rfl
  | cons v rest ih => simp [attrdictItems, ih]

/-- Unfolding of the normalizer on a large integer. -/
theorem attrdict_int_big (n : Int) (h : 2 ^ 53 < n) :
    attrdict_to_dict (.int n) = .str (toString n) := by
  simp only [attrdict_to_dict]
  rw [if_pos h]

/-- Unfolding of the normalizer on a small integer. -/
theorem attrdict_int_small (n : Int) (h : ¬ 2 ^ 53 < n) :
    attrdict_to_dict (.int n) = .int n := by
  simp only [attrdict_to_dict]
  rw [if_neg h]

mutual

/-- Applying the normalizer twice is the same as applying it once. -/
theorem attrdict_idem_val (v : PyVal) :
    attrdict_to_dict (attrdict_to_dict v) = attrdict_to_dict v := by
  cases v with
  | hexBytes bs => simp [attrdict_to_dict]
  | map es => simp [attrdict_to_dict, attrdict_idem_entries es]
  | list xs => simp [attrdict_to_dict, attrdict_idem_items xs]
  | int n =>
      by_cases h : (2 ^ 53 : Int) < n
      · rw [attrdict_int_big n h]; rfl
      · rw [attrdict_int_small n h, attrdict_int_small n h]
  | none => rfl
  | bool b => rfl
  | float t => rfl
  | str s => rfl

/-- Companion of `attrdict_idem_val` for mapping entries. -/
theorem attrdict_idem_entries (es : List (String × PyVal)) :
    attrdictEntries (attrdictEntries es) = attrdictEntries es := by
  cases es with
  | nil => rfl
  | cons e rest =>
      cases e with
      | mk k v => simp [attrdictEntries, attrdict_idem_val v, attrdict_idem_entries rest]

/-- Companion of `attrdict_idem_val` for list items. -/
theorem attrdict_idem_items (xs : List PyVal) :
    attrdictItems (attrdictItems xs) = attrdictItems xs := by
  cases xs with
  | nil => rfl
  | cons v rest => simp [attrdictItems, attrdict_idem_val v, attrdict_idem_items rest]

end

mutual

/-- Every integer in the normalizer's output is at most `2 ^ 53`. -/
theorem attrdict_le_val (v : PyVal) :
    allInts (fun n => decide (n ≤ 2 ^ 53)) (attrdict_to_dict v) = true := by
  cases v with
  | hexBytes bs => simp [attrdict_to_dict, allInts]
  | map es => simpa [attrdict_to_dict, allInts] using attrdict_le_entries es
  | list xs => simpa [attrdict_to_dict, allInts] using attrdict_le_items xs
  | int n =>
      by_cases h : (2 ^ 53 : Int) < n
      · rw [attrdict_int_big n h]; rfl
      · rw [attrdict_int_small n h]
        simp only [allInts, decide_eq_true_eq]
        omega
  | none => rfl
  | bool b => rfl
  | float t => rfl
  | str s => rfl

/-- Companion of `attrdict_le_val` for mapping entries. -/
theorem attrdict_le_entries (es : List (String × PyVal)) :
    allIntsEntries (fun n => decide (n ≤ 2 ^ 53)) (attrdictEntries es) = true := by
  cases es with
  | nil => rfl
  | cons e rest =>
      cases e with
      | mk k v =>
          simp only [attrdictEntries, allIntsEntries]
          rw [attrdict_le_val v, attrdict_le_entries rest]; rfl

/-- Companion of `attrdict_le_val` for list items. -/
theorem attrdict_le_items (xs : List PyVal) :
    allIntsItems (fun n => decide (n ≤ 2 ^ 53)) (attrdictItems xs) = true := by
  cases xs with
  | nil => rfl
  | cons v rest =>
      simp only [attrdictItems, allIntsItems]
      rw [attrdict_le_val v, attrdict_le_items rest]; rfl

end

/-! ## Claim C1 and C9 theorems -/

/-- C1 counterexample: on input `-(2 ^ 54)` the normalizer returns the
integer unchanged (the code only widens integers strictly greater than
`2 ^ 53`), and that output integer has absolute value greater than `2 ^ 53`,
so the claim that every integer occurring in the output has absolute value
at most `2 ^ 53` is false. -/
theorem C1_counterexample :
    attrdict_to_dict (.int (-(2 ^ 54))) = .int (-(2 ^ 54)) ∧
    allInts (fun n => decide (n.natAbs ≤ 2 ^ 53)) (attrdict_to_dict (.int (-(2 ^ 54)))) = false := by
  constructor
  · rw [attrdict_int_small _ (by norm_num)]
  · rw [attrdict_int_small _ (by norm_num)]
    simp only [allInts]
    decide

/-- C1 (amended): `attrdict_to_dict` is a JSON-safety transform in the
following sense: every integer occurring in its output is at most `2 ^ 53`
(large negative integers pass through unchanged, so there is no bound on
absolute values); HexBytes become their hex strings, mappings and lists are
transformed elementwise, an integer becomes its decimal string exactly when
it is strictly greater than `2 ^ 53` and is returned unchanged otherwise,
and every other atom is returned unchanged. -/
theorem C1_attrdict_to_dict_json_safety :
    (∀ v, allInts (fun n => decide (n ≤ 2 ^ 53)) (attrdict_to_dict v) = true) ∧
    (∀ bs, attrdict_to_dict (.hexBytes bs) = .str (hexOfBytes bs)) ∧
    (∀ es, attrdict_to_dict (.map es) =
      .map (es.map (fun e => (e.1, attrdict_to_dict e.2)))) ∧
    (∀ xs, attrdict_to_dict (.list xs) = .list (xs.map attrdict_to_dict)) ∧
    (∀ n : Int, attrdict_to_dict (.int n) =
      if 2 ^ 53 < n then .str (toString n) else .int n) ∧
    (∀ s, attrdict_to_dict (.str s) = .str s) ∧
    (∀ b, attrdict_to_dict (.bool b) = .bool b) ∧
    (∀ t, attrdict_to_dict (.float t) = .float t) ∧
    attrdict_to_dict .none = .none := by
  refine ⟨attrdict_le_val, fun bs => rfl, fun es => ?_, fun xs => ?_, fun n => ?_,
    fun s => rfl, fun b => rfl, fun t => rfl, rfl⟩
  · simp only [attrdict_to_dict, attrdictEntries_eq_map]
  · simp only [attrdict_to_dict, attrdictItems_eq_map]
  · by_cases h : (2 ^ 53 : Int) < n
    · rw [attrdict_int_big n h, if_pos h]
    · rw [attrdict_int_small n h, if_neg h]

/-- C9: the normalizer `attrdict_to_dict` is idempotent: applying it twice
yields the same result as applying it once, for every input value. -/
theorem C9_attrdict_to_dict_idempotent (v : PyVal) :
    attrdict_to_dict (attrdict_to_dict v) = attrdict_to_dict v :=
  attrdict_idem_val v

/-! ## The module-level Web3 state

`app/core/web3_setup.py` initializes a global `w3_instance` once at import
time (modelled as a fixed `inst : Option Nat`, an opaque handle or `None`);
`get_w3()` returns it.  Each service module holds a module-global `w3`
initialized to `get_w3()`; functions declaring `global w3` run
`if not w3 or not w3.is_connected(): w3 = get_w3()` (or the variant without
the `is_connected` call) and then raise `ConnectionError` when the refreshed
variable is still unusable.  `is_connected()` is modelled as a fixed
predicate `conn` on handles for the duration of one call. -/

/-- Translation of `get_w3` from `app/core/web3_setup.py`: returns the
module-global `w3_instance`, which never changes after startup. -/
def get_w3 (inst : Option Nat) : Option Nat := inst

/-- The refresh step `if not w3 or not w3.is_connected(): w3 = get_w3()`
of the functions that declare `global w3`. -/
def refreshW3 (inst : Option Nat) (conn : Nat → Bool) (cur : Option Nat) : Option Nat :=
  match cur with
  | Option.none => get_w3 inst
  | Option.some h => if conn h then Option.some h else get_w3 inst

/-- The refresh step `if not w3: w3 = get_w3()` of the functions that only
truth-test the global. -/
def refreshW3Plain (inst : Option Nat) (cur : Option Nat) : Option Nat :=
  match cur with
  | Option.none => get_w3 inst
  | Option.some h => Option.some h

/-- Whether `w3` is truthy and connected. -/
def w3Avail (conn : Nat → Bool) (cur : Option Nat) : Bool :=
  match cur with
  | Option.none => false
  | Option.some h => conn h

/-- The `global w3` preamble with an `is_connected` check: refresh, then
`if not w3 or not w3.is_connected(): raise ConnectionError(...)`.  Returns
the new value of the module global together with the handle or the error. -/
def ensureW3Conn (inst : Option Nat) (conn : Nat → Bool) (cur : Option Nat) (msg : String) :
    Option Nat × Except PyExc Nat :=
  let cur' := refreshW3 inst conn cur
  match cur' with
  | Option.none => (cur', .error (.connectionError msg))
  | Option.some h =>
      if conn h then (cur', .ok h) else (cur', .error (.connectionError msg))

/-- The `global w3` preamble without an `is_connected` check: refresh, then
`if not w3: raise ConnectionError(...)`. -/
def ensureW3Plain (inst : Option Nat) (cur : Option Nat) (msg : String) :
    Option Nat × Except PyExc Nat :=
  let cur' := refreshW3Plain inst cur
  match cur' with
  | Option.none => (cur', .error (.connectionError msg))
  | Option.some h => (cur', .ok h)

/-! ## `app/services/monad_service.py` : `get_balance`, `get_transaction`,
`get_block`

Remote effects are oracle arguments: `csum` models
`w3.to_checksum_address` (`Option.none` meaning the address is invalid and
`InvalidAddress`/`ValueError` is raised), and the RPC outcomes are explicit
result values. -/

/-- Outcome of `w3.eth.get_transaction`: the `TransactionNotFound`
exception, any other exception, or a value (`None` or a transaction dict). -/
inductive RpcTxRes where
  | notFound
  | exc (e : PyExc)
  | value (v : Option PyVal)

/-- Outcome of `w3.eth.get_block`: the `BlockNotFound` exception, any other
exception, or a value (`None` or a block dict). -/
inductive RpcBlockRes where
  | blockNotFound
  | exc (e : PyExc)
  | value (v : Option PyVal)

/-- Decimal rendering of `f'{w3.from_wei(balance_wei, "ether"):.18f}'` for a
non-negative wei amount: integer part, a dot, and 18 fractional digits. -/
def formatMon (wei : Int) : String :=
  let q := wei / (10 ^ 18 : Int)
  let r := (wei % (10 ^ 18 : Int)).toNat
  let digits := toString r
  let pad := String.mk (List.replicate (18 - digits.length) '0')
  toString q ++ "." ++ pad ++ digits

/-- Translation of `monad_service.get_balance`.  The pair's first component
is the value of the module-global `w3` after the call. -/
def get_balance (inst : Option Nat) (conn : Nat → Bool) (curW3 : Option Nat)
    (csum : String → Option String) (address : String)
    (rpcBalance : Except PyExc Int) : Option Nat × Except PyExc PyVal :=
  match ensureW3Conn inst conn curW3 "Monad RPC connection not available." with
  | (w3', .error e) => (w3', .error e)
  | (w3', .ok _) =>
    match csum address with
    | Option.none => (w3', .error (.valueError ("Invalid address format: " ++ address)))
    | Option.some caddr =>
        match rpcBalance with
        | .error _ => (w3', .error (.connectionError "Could not retrieve balance"))
        | .ok wei =>
            (w3', .ok (.map [("address", .str caddr),
                             ("balance_wei", .str (toString wei)),
                             ("balance_mon", .str (formatMon wei))]))

/-- Translation of `monad_service.get_transaction`.  A `None` RPC result
raises `FileNotFoundError` inside the `try`, which the `except Exception`
clause catches and re-raises as `ConnectionError`; only the dedicated
`except TransactionNotFound` clause produces `FileNotFoundError`. -/
def get_transaction (inst : Option Nat) (conn : Nat → Bool) (curW3 : Option Nat)
    (txHash : String) (rpc : RpcTxRes) : Option Nat × Except PyExc PyVal :=
  match ensureW3Conn inst conn curW3 "Monad RPC connection not available." with
  | (w3', .error e) => (w3', .error e)
  | (w3', .ok _) =>
    if ¬ (txHash.startsWith "0x" ∧ txHash.length = 66) then
      (w3', .error (.valueError "Invalid transaction hash format."))
    else
      match rpc with
      | .notFound => (w3', .error (.fileNotFound ("Transaction not found: " ++ txHash)))
      | .exc _ => (w3', .error (.connectionError "Could not retrieve transaction details"))
      | .value Option.none =>
          (w3', .error (.connectionError "Could not retrieve transaction details"))
      | .value (Option.some v) => (w3', .ok (attrdict_to_dict v))

/-- Block identifiers as received by `get_block`: a string, an int (Python
`bool`s are `int`s), or a value of any other type. -/
inductive BlockIdent where
  | str (s : String)
  | int (n : Int)
  | nonStrInt

/-- What is passed on to `w3.eth.get_block`: a lower-cased tag string or a
non-negative block number. -/
inductive BlockParam where
  | tag (s : String)
  | num (n : Int)
deriving DecidableEq

/-- Python whitespace characters stripped by `int(str)`. -/
def isPyWs (c : Char) : Bool :=
  c == ' ' || c == '	' || c == '
' || c == '
' || c == '' || c == ''

/-- Digit-run parser for `int(str)` after the first digit: decimal digits
with single underscores allowed between digits. -/
def pyDigitsCore : List Char → Nat → Option Nat
  | [], acc => Option.some acc
  | '_' :: c :: rest, acc =>
      if c.isDigit then pyDigitsCore rest (acc * 10 + (c.toNat - 48)) else Option.none
  | c :: rest, acc =>
      if c.isDigit then pyDigitsCore rest (acc * 10 + (c.toNat - 48)) else Option.none

/-- Digit-run parser for `int(str)`: at least one digit, then
`pyDigitsCore`. -/
def pyDigitsStart : List Char → Option Nat
  | [] => Option.none
  | c :: rest => if c.isDigit then pyDigitsCore rest (c.toNat - 48) else Option.none

/-- Model of Python `int(s)` on ASCII strings: optional surrounding
whitespace, an optional sign, and a digit run with optional single
underscores between digits; `Option.none` models the `ValueError`. -/
def pyIntOfString (s : String) : Option Int :=
  let cs := (s.data.dropWhile isPyWs).reverse.dropWhile isPyWs |>.reverse
  match cs with
  | '+' :: rest => (pyDigitsStart rest).map (fun n => (n : Int))
  | '-' :: rest => (pyDigitsStart rest).map (fun n => -(n : Int))
  | _ => (pyDigitsStart cs).map (fun n => (n : Int))

/-- Translation of the identifier validation of `monad_service.get_block`:
strings are lower-cased and matched against the three tags, otherwise parsed
with `int()` and required non-negative (`ValueError` on failure, the
`assert` also surfacing as `ValueError`); negative ints raise `ValueError`;
any other type raises `TypeError`.  The final `if block_id is None` check of
the source is unreachable and not modelled. -/
def get_block_validate : BlockIdent → Except PyExc BlockParam
  | .str s =>
      let l := pyLowerStr s
      if l ∈ ["latest", "earliest", "pending"] then .ok (.tag l)
      else
        match pyIntOfString s with
        | Option.some n =>
            if n ≥ 0 then .ok (.num n)
            else .error (.valueError "Invalid block identifier string.")
        | Option.none => .error (.valueError "Invalid block identifier string.")
  | .int n =>
      if n < 0 then .error (.valueError "Block number cannot be negative.")
      else .ok (.num n)
  | .nonStrInt => .error (.typeError "Invalid block identifier type.")

/-- The RPC-and-reshape tail of `get_block`: as in `get_transaction`, a
`None` block raises `FileNotFoundError` inside the `try`, which the
catch-all turns into `ConnectionError`. -/
def get_block_fetch (rpc : BlockParam → RpcBlockRes) (p : BlockParam) : Except PyExc PyVal :=
  match rpc p with
  | .blockNotFound => .error (.fileNotFound "Block not found")
  | .exc _ => .error (.connectionError "Could not retrieve block details")
  | .value Option.none => .error (.connectionError "Could not retrieve block details")
  | .value (Option.some v) => .ok (attrdict_to_dict v)

/-- Translation of `monad_service.get_block`. -/
def get_block (inst : Option Nat) (conn : Nat → Bool) (curW3 : Option Nat)
    (blockIdentifier : BlockIdent) (rpc : BlockParam → RpcBlockRes) :
    Option Nat × Except PyExc PyVal :=
  match ensureW3Conn inst conn curW3 "Monad RPC connection not available." with
  | (w3', .error e) => (w3', .error e)
  | (w3', .ok _) =>
    match get_block_validate blockIdentifier with
    | .error e => (w3', .error e)
    | .ok p => (w3', get_block_fetch rpc p)

/-! ## Claim C6 -/

/-- Validator written from the words of claim C6 (the spec side of the
comparison): a string is accepted exactly when it is one of the three tags
in any letter case (passed on lower-cased) or `int()` parses it to a
non-negative integer (passed on as that integer), every other string raises
`ValueError`; an integer is accepted exactly when it is non-negative, a
negative one raises `ValueError`; any other type raises `TypeError`. -/
def blockValidateSpec (b : BlockIdent) : Except PyExc BlockParam :=
  match b with
  | .str s =>
      if pyLowerStr s ∈ ["latest", "earliest", "pending"] then .ok (.tag (pyLowerStr s))
      else
        match pyIntOfString s with
        | Option.some n =>
            if 0 ≤ n then .ok (.num n)
            else .error (.valueError "Invalid block identifier string.")
        | Option.none => .error (.valueError "Invalid block identifier string.")
  | .int n =>
      if n < 0 then .error (.valueError "Block number cannot be negative.")
      else .ok (.num n)
  | .nonStrInt => .error (.typeError "Invalid block identifier type.")

/-- The inline validation of `get_block` agrees with the spec-side
validator. -/
theorem get_block_validate_eq_spec (b : BlockIdent) :
    get_block_validate b = blockValidateSpec b := by
  cases b <;> rfl

/-- C6: with the RPC connection available, `get_block` validates its
identifier exactly as the claim states (tags in any case are passed on
lower-cased, `int()`-parseable non-negative strings are passed on as
integers, every other string raises `ValueError`, negative integers raise
`ValueError`, other types raise `TypeError`), and a validation failure
decides the result before any RPC call: the outcome is the validation error
for every RPC oracle. -/
theorem C6_get_block_validation :
    (∀ b, get_block_validate b = blockValidateSpec b) ∧
    (∀ inst conn curW3 b rpc,
      w3Avail conn (refreshW3 inst conn curW3) = true →
      (get_block inst conn curW3 b rpc).2 =
        match blockValidateSpec b with
        | .error e => .error e
        | .ok p => get_block_fetch rpc p) := by
  refine ⟨get_block_validate_eq_spec, fun inst conn curW3 b rpc h => ?_⟩
  unfold get_block ensureW3Conn
  cases hcur : refreshW3 inst conn curW3 with
  | none => rw [hcur] at h; simp [w3Avail] at h
  | some hd =>
      have hc : conn hd = true := by
        rw [hcur] at h; simpa [w3Avail] using h
      rw [get_block_validate_eq_spec]
      simp only [hcur, hc, if_pos]
      cases blockValidateSpec b <;> rfl

/-- Witness for C6 at concrete inputs: a connected state, the identifier
string "Latest" and a constant RPC oracle. -/
theorem C6_get_block_validation_witness :
    (get_block (Option.some 0) (fun _ => true) (Option.some 0) (.str "Latest")
        (fun _ => RpcBlockRes.value Option.none)).2 =
      match blockValidateSpec (.str "Latest") with
      | .error e => .error e
      | .ok p => get_block_fetch (fun _ => RpcBlockRes.value Option.none) p :=
  C6_get_block_validation.2 (Option.some 0) (fun _ => true) (Option.some 0)
    (.str "Latest") (fun _ => RpcBlockRes.value Option.none) rfl

/-! ## `app/services/magic_eden_service.py`

The HTTP oracle of a pagination loop is indexed by the ordinal of the
request within the call (`0` for the first request); for the offset/limit
loop of `get_nft_collection_stats` it is indexed by the `offset` request
parameter instead, so that the issued offsets are visible in the theorems.
Each `while` loop takes a fuel argument; `Option.none` means the loop was
still running when the fuel ran out. -/

/-- The `except` chain of the Magic Eden collections loop:
`httpx.HTTPStatusError` and `httpx.RequestError` map to `ConnectionError`
with their messages, and the catch-all `except Exception` (which also
catches the `ValueError` raised for an unexpected response format) re-raises
`ConnectionError`. -/
def meCollectionsHandler (e : PyExc) : PyExc :=
  match e with
  | .httpStatusError c => .connectionError ("ME API error: " ++ toString c)
  | .requestError m => .connectionError ("Network error connecting to ME API: " ++ m)
  | _ => .connectionError "Unexpected error during ME fetch"

/-- Translation of the offset/limit `while True` loop of
`get_nft_collection_stats`: request at the current offset with limit 100,
require a dict with a `collections` key (else `ValueError`, immediately
downgraded by the catch-all), stop on an empty page, append, stop when the
page has fewer than 100 items, else advance the offset by 100.  The first
component of the result records the offsets of the issued requests. -/
def meCollectionsLoop (http : Nat → Except PyExc PyVal) (fuel : Nat)
    (offset : Nat) (acc : List PyVal) (trace : List Nat) :
    Option (List Nat × Except PyExc (List PyVal)) :=
  match fuel with
  | 0 => Option.none
  | fuel + 1 =>
    let trace := trace ++ [offset]
    match http offset with
    | .error e => Option.some (trace, .error (meCollectionsHandler e))
    | .ok body =>
        match body with
        | .map es =>
            match pyLookup es "collections" with
            | Option.some cv =>
                if ¬ pyTruthy cv then Option.some (trace, .ok acc)
                else
                  match pyIter cv with
                  | .error e => Option.some (trace, .error (meCollectionsHandler e))
                  | .ok items =>
                      let acc := acc ++ items
                      if items.length < 100 then Option.some (trace, .ok acc)
                      else meCollectionsLoop http fuel (offset + 100) acc trace
            | Option.none =>
                Option.some (trace, .error (meCollectionsHandler
                  (.valueError "Unexpected format from ME collections endpoint.")))
        | _ =>
            Option.some (trace, .error (meCollectionsHandler
              (.valueError "Unexpected format from ME collections endpoint.")))

/-- Translation of `magic_eden_service.get_nft_collection_stats` (the
`monad_service` copy has the same structure up to log and message texts). -/
def get_nft_collection_stats (meKey : Option String) (inst : Option Nat)
    (csum : String → Option String) (walletAddress : String)
    (http : Nat → Except PyExc PyVal) (fuel : Nat) :
    Option (List Nat × Except PyExc (List PyVal)) :=
  match meKey with
  | Option.none =>
      Option.some ([], .error (.valueError "MAGIC_EDEN_API_KEY environment variable is not set."))
  | Option.some _ =>
    match get_w3 inst with
    | Option.none =>
        Option.some ([], .error (.connectionError "Web3 connection not available for address validation."))
    | Option.some _ =>
      match csum walletAddress with
      | Option.none =>
          Option.some ([], .error (.valueError ("Invalid address format provided: " ++ walletAddress)))
      | Option.some _ => meCollectionsLoop http fuel 0 [] []

/-- The `except` chain of the Magic Eden activity loop. -/
def meActivityHandler (e : PyExc) : PyExc :=
  match e with
  | .httpStatusError c => .connectionError ("Magic Eden API error: " ++ toString c)
  | .requestError m => .connectionError ("Network error connecting to Magic Eden API: " ++ m)
  | _ => .connectionError "Unexpected error during Magic Eden activity fetch"

/-- Translation of the continuation-URL `while` loop of `get_nft_activity`:
require a dict (else `ValueError`, downgraded by the catch-all), break on an
empty first page, extend with `data.get('activities', [])`, and follow
`data.get('continuation')` while it is truthy.  `pageIdx` is the 0-based
ordinal of the request. -/
def meActivityLoop (http : Nat → Except PyExc PyVal) (fuel : Nat)
    (pageIdx : Nat) (acc : List PyVal) : Option (Except PyExc (List PyVal)) :=
  match fuel with
  | 0 => Option.none
  | fuel + 1 =>
    match http pageIdx with
    | .error e => Option.some (.error (meActivityHandler e))
    | .ok body =>
        match body with
        | .map es =>
            let ap := ((pyLookup es "activities").getD (.list []))
            if ¬ pyTruthy ap ∧ pageIdx = 0 then Option.some (.ok acc)
            else
              match pyIter ap with
              | .error e => Option.some (.error (meActivityHandler e))
              | .ok items =>
                  let acc := acc ++ items
                  let cont := (pyLookup es "continuation").getD PyVal.none
                  if ¬ pyTruthy cont then Option.some (.ok acc)
                  else meActivityLoop http fuel (pageIdx + 1) acc
        | _ =>
            Option.some (.error (meActivityHandler
              (.valueError "Unexpected format from Magic Eden activity endpoint.")))

/-- Translation of `magic_eden_service.get_nft_activity`.  The first
component is the module-global `w3` after the call (the function declares
`global w3` and refreshes it without an `is_connected` check). -/
def get_nft_activity (meKey : Option String) (inst : Option Nat) (curW3 : Option Nat)
    (csum : String → Option String) (contractAddress tokenId : String)
    (http : Nat → Except PyExc PyVal) (fuel : Nat) :
    Option Nat × Option (Except PyExc (List PyVal)) :=
  match meKey with
  | Option.none =>
      (curW3, Option.some (.error (.valueError "MAGIC_EDEN_API_KEY environment variable is not set.")))
  | Option.some _ =>
    match ensureW3Plain inst curW3 "Web3 connection not available for address validation." with
    | (w3', .error e) => (w3', Option.some (.error e))
    | (w3', .ok _) =>
      match csum contractAddress with
      | Option.none =>
          (w3', Option.some (.error (.valueError
            ("Invalid contract address format provided: " ++ contractAddress))))
      | Option.some _ =>
          if tokenId = "" then
            (w3', Option.some (.error (.valueError ("Invalid token_id provided: " ++ tokenId))))
          else (w3', meActivityLoop http fuel 0 [])

/-- The `except` chain of `get_user_nft_activity`. -/
def meUserActivityHandler (e : PyExc) : PyExc :=
  match e with
  | .httpStatusError c => .connectionError ("Magic Eden API error: " ++ toString c)
  | .requestError m => .connectionError ("Network error connecting to Magic Eden API: " ++ m)
  | _ => .connectionError "Unexpected error during Magic Eden user activity fetch"

/-- Response processing of `get_user_nft_activity`: a dict with an
`activities` key returns `data.get('activities', [])` as is; anything else
raises `ValueError`, which the catch-all downgrades to `ConnectionError`. -/
def meUserActivityRespond (r : Except PyExc PyVal) : Except PyExc PyVal :=
  match r with
  | .error e => .error (meUserActivityHandler e)
  | .ok body =>
      match body with
      | .map es =>
          match pyLookup es "activities" with
          | Option.some av => .ok av
          | Option.none =>
              .error (meUserActivityHandler
                (.valueError "Unexpected format from Magic Eden user activity endpoint."))
      | _ =>
          .error (meUserActivityHandler
            (.valueError "Unexpected format from Magic Eden user activity endpoint."))

/-- Translation of `magic_eden_service.get_user_nft_activity`.  The limit
handling is `limit = int(limit_per_page)` (identity on the declared `int`
type, so the `except ValueError` fallback to 20 is unreachable) followed by
the silent replacement of out-of-range values by 100; the HTTP oracle is a
function of the `limit` request parameter actually sent. -/
def get_user_nft_activity (meKey : Option String) (inst : Option Nat) (curW3 : Option Nat)
    (csum : String → Option String) (userAddress : String) (limitPerPage : Int)
    (http : Int → Except PyExc PyVal) : Option Nat × Except PyExc PyVal :=
  match meKey with
  | Option.none =>
      (curW3, .error (.valueError "MAGIC_EDEN_API_KEY environment variable is not set."))
  | Option.some _ =>
    match ensureW3Plain inst curW3 "Web3 connection not available for address validation." with
    | (w3', .error e) => (w3', .error e)
    | (w3', .ok _) =>
      match csum userAddress with
      | Option.none =>
          (w3', .error (.valueError ("Invalid address format provided: " ++ userAddress)))
      | Option.some _ =>
          let limit := limitPerPage
          let limit := if 1 ≤ limit ∧ limit ≤ 1000 then limit else 100
          (w3', meUserActivityRespond (http limit))

/-- Allowed values of the `period` argument of `get_trending_collections`. -/
def allowed_periods : List String :=
  ["5m", "10m", "30m", "1h", "6h", "1d", "24h", "7d", "30d"]

/-- Allowed values of the `sort_by` argument of `get_trending_collections`. -/
def allowed_sort : List String := ["sales", "volume"]

/-- The `except` chain of `get_trending_collections`. -/
def meTrendingHandler (e : PyExc) : PyExc :=
  match e with
  | .httpStatusError c => .connectionError ("Magic Eden API error: " ++ toString c)
  | .requestError m => .connectionError ("Network error connecting to Magic Eden API: " ++ m)
  | _ => .connectionError "Unexpected error during Magic Eden trending fetch"

/-- Translation of `magic_eden_service.get_trending_collections`: key check,
then period, then sort, then the limit bounds (the in-`try` range
`ValueError` is re-raised by the `except ValueError` clause with a new
message), then the single request; a response that is not a dict with a
`collections` list raises `ValueError`, downgraded by the catch-all. -/
def get_trending_collections (meKey : Option String) (limit : Int)
    (period sortBy : String) (http : Except PyExc PyVal) : Except PyExc PyVal :=
  match meKey with
  | Option.none => .error (.valueError "MAGIC_EDEN_API_KEY environment variable is not set.")
  | Option.some _ =>
    if pyLowerStr period ∉ allowed_periods then
      .error (.valueError ("Invalid period: " ++ period))
    else if pyLowerStr sortBy ∉ allowed_sort then
      .error (.valueError ("Invalid sortBy: " ++ sortBy))
    else if ¬ (1 ≤ limit ∧ limit ≤ 500) then
      .error (.valueError "Invalid limit value, must be an integer.")
    else
      match http with
      | .error e => .error (meTrendingHandler e)
      | .ok body =>
          match body with
          | .map es =>
              match pyLookup es "collections" with
              | Option.some (.list xs) => .ok (.list xs)
              | _ =>
                  .error (meTrendingHandler
                    (.valueError "Unexpected format from Magic Eden trending endpoint."))
          | _ =>
              .error (meTrendingHandler
                (.valueError "Unexpected format from Magic Eden trending endpoint."))

/-! ## `app/services/zerion_service.py` -/

/-- Python `==` between a value and a string literal. -/
def pyEqStr (v : PyVal) (t : String) : Bool :=
  match v with
  | .str s => s == t
  | _ => false

/-- Adding an element to a Python `set`, modelled as a duplicate-free list
keeping first-insertion order (the claims proved about the set are
order-independent). -/
def insertUnique (xs : List String) (x : String) : List String :=
  if x ∈ xs then xs else xs ++ [x]

/-- Translation of the body of `_parse_zerion_token_data` for one position:
entries of type `positions` with truthy `fungible_info` and `quantity` and
falsy `trash`/`native` flags yield a token dict; `.get` on a non-dict raises
`AttributeError`. -/
def parseZerionPosition (position : PyVal) : Except PyExc (Option PyVal) := do
  let ty ← pyGet position "type" PyVal.none
  if pyEqStr ty "positions" then do
    let attributes ← pyGet position "attributes" (.map [])
    let fungibleInfo ← pyGet attributes "fungible_info" PyVal.none
    let quantityInfo ← pyGet attributes "quantity" PyVal.none
    let flags ← pyGet attributes "flags" (.map [])
    let isTrash ← pyGet flags "trash" (.bool false)
    let isNative ← pyGet flags "native" (.bool false)
    if pyTruthy fungibleInfo ∧ pyTruthy quantityInfo ∧
        ¬ pyTruthy isTrash ∧ ¬ pyTruthy isNative then do
      let name ← pyGet fungibleInfo "name" (.str "N/A")
      let symbol ← pyGet fungibleInfo "symbol" (.str "N/A")
      let balanceStr ← pyGet quantityInfo "numeric" (.str "0")
      pure (Option.some (.map [("name", name), ("symbol", symbol),
        ("balance_exact", balanceStr)]))
    else pure Option.none
  else pure Option.none

/-- Translation of `_parse_zerion_token_data` over a whole page. -/
def parseZerionTokenData : List PyVal → Except PyExc (List PyVal)
  | [] => .ok []
  | p :: rest => do
      let t ← parseZerionPosition p
      let ts ← parseZerionTokenData rest
      pure (match t with
            | Option.some tok => tok :: ts
            | Option.none => ts)

/-- The `except` chain of the Zerion positions loop. -/
def zerionPosHandler (e : PyExc) : PyExc :=
  match e with
  | .httpStatusError c => .connectionError ("Zerion API error: " ++ toString c)
  | .requestError m => .connectionError ("Network error connecting to Zerion API: " ++ m)
  | _ => .connectionError "Unexpected error during Zerion positions fetch"

/-- Translation of the `links.next` `while` loop of
`get_monad_erc20_balances`: parse the page's `data` positions, extend the
accumulator, and follow `links.next` while it is truthy.  There is no
empty-first-page break in this loop. -/
def zerionPositionsLoop (http : Nat → Except PyExc PyVal) (fuel : Nat)
    (pageIdx : Nat) (acc : List PyVal) : Option (Except PyExc (List PyVal)) :=
  match fuel with
  | 0 => Option.none
  | fuel + 1 =>
    match http pageIdx with
    | .error e => Option.some (.error (zerionPosHandler e))
    | .ok body =>
        match (do
          let dataV ← pyGet body "data" (.list [])
          let positions ← pyIter dataV
          let parsed ← parseZerionTokenData positions
          let links ← pyGet body "links" (.map [])
          let next ← pyGet links "next" PyVal.none
          pure (parsed, next) : Except PyExc (List PyVal × PyVal)) with
        | .error e => Option.some (.error (zerionPosHandler e))
        | .ok (parsed, next) =>
            let acc := acc ++ parsed
            if ¬ pyTruthy next then Option.some (.ok acc)
            else zerionPositionsLoop http fuel (pageIdx + 1) acc

/-- Sort keys of `sorted(all_parsed_tokens, key=lambda x:
x.get('name', '').lower())`: the key computation raises `AttributeError`
when a token's `name` is not a string. -/
def tokenSortKeys : List PyVal → Except PyExc (List (String × PyVal))
  | [] => .ok []
  | t :: rest => do
      let nameV ← pyGet t "name" (.str "")
      let key ← pyLower nameV
      let ks ← tokenSortKeys rest
      pure ((key, t) :: ks)

/-- The final `return sorted(...)` of `get_monad_erc20_balances`: stable
sort by the lower-cased `name`.  This statement is outside every
`try` block of the source, so a key error escapes the function raw. -/
def sortTokensByName (tokens : List PyVal) : Except PyExc (List PyVal) := do
  let keyed ← tokenSortKeys tokens
  pure ((keyed.mergeSort (fun a b => decide (a.1 ≤ b.1))).map Prod.snd)

/-- Translation of `zerion_service.get_monad_erc20_balances` (this variant
reads `w3` locally through `get_w3()` and does not touch the module
global). -/
def get_monad_erc20_balances (zerionKey : Option String) (inst : Option Nat)
    (csum : String → Option String) (address : String)
    (http : Nat → Except PyExc PyVal) (fuel : Nat) :
    Option (Except PyExc (List PyVal)) :=
  match zerionKey with
  | Option.none =>
      Option.some (.error (.valueError "ZERION_API_KEY environment variable is not set."))
  | Option.some _ =>
    match get_w3 inst with
    | Option.none =>
        Option.some (.error (.connectionError "Web3 connection not available for address validation."))
    | Option.some _ =>
      match csum address with
      | Option.none =>
          Option.some (.error (.valueError ("Invalid address format provided: " ++ address)))
      | Option.some _ =>
          match zerionPositionsLoop http fuel 0 [] with
          | Option.none => Option.none
          | Option.some (.error e) => Option.some (.error e)
          | Option.some (.ok tokens) => Option.some (sortTokensByName tokens)

/-- The `except` chain of the Zerion transactions loop of
`get_contract_interactions`. -/
def zerionTxHandler (e : PyExc) : PyExc :=
  match e with
  | .httpStatusError c => .connectionError ("Zerion API error: " ++ toString c)
  | .requestError m => .connectionError ("Network error connecting to Zerion: " ++ m)
  | _ => .connectionError "Unexpected error during Zerion fetch"

/-- Translation of the inner `for tx in tx_list_page` loop of
`get_contract_interactions`.  In the source the `if sent_to:` test is not
nested under the `if tx.get('type') == 'transactions':` branch, so it reads
the local variable `sent_to` left over from a previous iteration; when no
`transactions` entry has been seen yet the read raises
`UnboundLocalError`.  The state `st` is `Option.none` while the variable is
unbound. -/
def zerionTxScanPage (txs : List PyVal) (st : Option PyVal) (iaddrs : List String) :
    Except PyExc (Option PyVal × List String) :=
  match txs with
  | [] => .ok (st, iaddrs)
  | tx :: rest => do
      let tyV ← pyGet tx "type" PyVal.none
      let st' ←
        if pyEqStr tyV "transactions" then do
          let attrs ← pyGet tx "attributes" (.map [])
          let s ← pyGet attrs "sent_to" PyVal.none
          pure (Option.some s)
        else pure st
      match st' with
      | Option.none =>
          .error (.other "UnboundLocalError"
            "local variable sent_to referenced before assignment")
      | Option.some sv =>
          if pyTruthy sv then do
            let low ← pyLower sv
            zerionTxScanPage rest st' (insertUnique iaddrs low)
          else zerionTxScanPage rest st' iaddrs

/-- Translation of the `links.next` `while` loop of
`get_contract_interactions`: break on an empty first page, scan each page
for `sent_to` addresses, count processed entries, follow `links.next`. -/
def zerionInteractionsLoop (http : Nat → Except PyExc PyVal) (fuel : Nat)
    (pageIdx : Nat) (st : Option PyVal) (iaddrs : List String) (total : Nat) :
    Option (Except PyExc (List String × Nat)) :=
  match fuel with
  | 0 => Option.none
  | fuel + 1 =>
    match http pageIdx with
    | .error e => Option.some (.error (zerionTxHandler e))
    | .ok body =>
        match (do
          let dataV ← pyGet body "data" (.list [])
          let links ← pyGet body "links" (.map [])
          let next ← pyGet links "next" PyVal.none
          pure (dataV, next) : Except PyExc (PyVal × PyVal)) with
        | .error e => Option.some (.error (zerionTxHandler e))
        | .ok (dataV, next) =>
            if ¬ pyTruthy dataV ∧ pageIdx = 0 then Option.some (.ok (iaddrs, total))
            else
              match pyIter dataV with
              | .error e => Option.some (.error (zerionTxHandler e))
              | .ok txs =>
                  match zerionTxScanPage txs st iaddrs with
                  | .error e => Option.some (.error (zerionTxHandler e))
                  | .ok (st', iaddrs') =>
                      let total := total + txs.length
                      if ¬ pyTruthy next then Option.some (.ok (iaddrs', total))
                      else zerionInteractionsLoop http fuel (pageIdx + 1) st' iaddrs' total

/-- Translation of the contract-check loop of `get_contract_interactions`:
for each interacted address, checksum it (`InvalidAddress` skips it), fetch
its code (any failure is logged and skipped), and collect checksummed
addresses with non-empty code. -/
def contractCheckLoop (csum : String → Option String)
    (code : String → Except PyExc (List Nat)) (addrs : List String)
    (contracts : List String) : List String :=
  match addrs with
  | [] => contracts
  | a :: rest =>
      match csum a with
      | Option.none => contractCheckLoop csum code rest contracts
      | Option.some ca =>
          match code ca with
          | .error _ => contractCheckLoop csum code rest contracts
          | .ok bs =>
              if ¬ bs.isEmpty ∧ hexOfBytes bs ≠ "0x" then
                contractCheckLoop csum code rest (insertUnique contracts ca)
              else contractCheckLoop csum code rest contracts

/-- The result dict of `get_contract_interactions`. -/
def interactionsResult (walletAddress : String) (total : Nat)
    (iaddrs contracts : List String) : PyVal :=
  .map [("analysis_address", .str walletAddress),
        ("total_transactions_processed_by_zerion", .int total),
        ("unique_interacted_address_count", .int iaddrs.length),
        ("unique_contract_count", .int contracts.length),
        ("contract_addresses", .list ((contracts.mergeSort
          (fun a b => decide (a ≤ b))).map PyVal.str))]

/-- Translation of `zerion_service.get_contract_interactions`. -/
def get_contract_interactions (inst : Option Nat) (conn : Nat → Bool) (curW3 : Option Nat)
    (zerionKey : Option String) (csum : String → Option String) (walletAddress : String)
    (http : Nat → Except PyExc PyVal) (code : String → Except PyExc (List Nat))
    (fuel : Nat) : Option Nat × Option (Except PyExc PyVal) :=
  match ensureW3Conn inst conn curW3 "Monad RPC connection needed." with
  | (w3', .error e) => (w3', Option.some (.error e))
  | (w3', .ok _) =>
    match zerionKey with
    | Option.none => (w3', Option.some (.error (.valueError "Zerion API Key not configured.")))
    | Option.some _ =>
      match csum walletAddress with
      | Option.none =>
          (w3', Option.some (.error (.valueError ("Invalid address format: " ++ walletAddress))))
      | Option.some _ =>
          match zerionInteractionsLoop http fuel 0 Option.none [] 0 with
          | Option.none => (w3', Option.none)
          | Option.some (.error e) => (w3', Option.some (.error e))
          | Option.some (.ok (iaddrs, total)) =>
              let contracts := contractCheckLoop csum code iaddrs []
              (w3', Option.some (.ok (interactionsResult walletAddress total iaddrs contracts)))

/-- The `except` chain of the Zerion NFT transactions loop of
`get_user_nft_transactions`. -/
def zerionNftTxHandler (e : PyExc) : PyExc :=
  match e with
  | .httpStatusError c => .connectionError ("Zerion API error: " ++ toString c)
  | .requestError m => .connectionError ("Network error connecting to Zerion API: " ++ m)
  | _ => .connectionError "Unexpected error during Zerion NFT Tx fetch"

/-- Translation of the `links.next` `while` loop of
`get_user_nft_transactions`: break on an empty first page, extend with the
raw page, follow `links.next` while present. -/
def zerionNftTxLoop (http : Nat → Except PyExc PyVal) (fuel : Nat)
    (pageIdx : Nat) (acc : List PyVal) : Option (Except PyExc (List PyVal)) :=
  match fuel with
  | 0 => Option.none
  | fuel + 1 =>
    match http pageIdx with
    | .error e => Option.some (.error (zerionNftTxHandler e))
    | .ok body =>
        match (do
          let dataV ← pyGet body "data" (.list [])
          let links ← pyGet body "links" (.map [])
          let next ← pyGet links "next" PyVal.none
          pure (dataV, next) : Except PyExc (PyVal × PyVal)) with
        | .error e => Option.some (.error (zerionNftTxHandler e))
        | .ok (dataV, next) =>
            if ¬ pyTruthy dataV ∧ pageIdx = 0 then Option.some (.ok acc)
            else
              match pyIter dataV with
              | .error e => Option.some (.error (zerionNftTxHandler e))
              | .ok items =>
                  let acc := acc ++ items
                  if ¬ pyTruthy next then Option.some (.ok acc)
                  else zerionNftTxLoop http fuel (pageIdx + 1) acc

/-- Translation of `zerion_service.get_user_nft_transactions`. -/
def get_user_nft_transactions (zerionKey : Option String) (inst : Option Nat)
    (curW3 : Option Nat) (csum : String → Option String) (userAddress : String)
    (http : Nat → Except PyExc PyVal) (fuel : Nat) :
    Option Nat × Option (Except PyExc (List PyVal)) :=
  match zerionKey with
  | Option.none =>
      (curW3, Option.some (.error (.valueError "ZERION_API_KEY environment variable is not set.")))
  | Option.some _ =>
    match ensureW3Plain inst curW3 "Web3 connection not available for address validation." with
    | (w3', .error e) => (w3', Option.some (.error e))
    | (w3', .ok _) =>
      match csum userAddress with
      | Option.none =>
          (w3', Option.some (.error (.valueError ("Invalid address format provided: " ++ userAddress))))
      | Option.some _ => (w3', zerionNftTxLoop http fuel 0 [])

/-! ## `app/services/insight_service.py` and `monad_service.read_contract` -/

/-- ABI extraction shared by `get_abi_from_insight` and the fetch branch of
`read_contract`: a list body is the ABI; a dict body yields `result` when it
is a list, else `abi` when it is a list; anything else fails the parse. -/
def insightAbiParse (body : PyVal) : Option (List PyVal) :=
  match body with
  | .list xs => Option.some xs
  | .map es =>
      match pyLookup es "result" with
      | Option.some (.list xs) => Option.some xs
      | _ =>
          match pyLookup es "abi" with
          | Option.some (.list xs) => Option.some xs
          | _ => Option.none
  | _ => Option.none

/-- The `except` chain of `get_abi_from_insight`: a 404 status becomes
`FileNotFoundError`, any other HTTP status and every other exception
(including the in-`try` parse `ValueError`) becomes `ConnectionError`. -/
def insightAbiHandler (e : PyExc) : PyExc :=
  match e with
  | .httpStatusError c =>
      if c = 404 then .fileNotFound "ABI not found on Insight (404)."
      else .connectionError ("Failed to fetch ABI: HTTP " ++ toString c)
  | _ => .connectionError "Failed to fetch ABI"

/-- Translation of `insight_service.get_abi_from_insight` (reads `w3`
locally through `get_w3()`). -/
def get_abi_from_insight (clientId : Option String) (inst : Option Nat)
    (csum : String → Option String) (contractAddress : String)
    (http : Except PyExc PyVal) : Except PyExc PyVal :=
  match clientId with
  | Option.none => .error (.valueError "THIRDWEB_CLIENT_ID environment variable is not set.")
  | Option.some _ =>
    match get_w3 inst with
    | Option.none => .error (.connectionError "Web3 needed for validation.")
    | Option.some _ =>
      match csum contractAddress with
      | Option.none =>
          .error (.valueError ("Invalid contract address format: " ++ contractAddress))
      | Option.some _ =>
          match http with
          | .error e => .error (insightAbiHandler e)
          | .ok body =>
              match insightAbiParse body with
              | Option.some xs => .ok (.list xs)
              | Option.none =>
                  .error (insightAbiHandler
                    (.valueError "Could not parse ABI list from Insight response."))

/-- The `except` chain of `get_transaction_history`: `httpx.HTTPStatusError`
becomes `ConnectionError`, and the catch-all (covering network errors and
the in-`try` format `ValueError`) also becomes `ConnectionError`. -/
def insightHistHandler (e : PyExc) : PyExc :=
  match e with
  | .httpStatusError c =>
      .connectionError ("Failed to fetch Tx History from Thirdweb Insight: HTTP " ++ toString c)
  | _ => .connectionError "Failed to fetch Tx History"

/-- Translation of `insight_service.get_transaction_history`.  The
`isinstance(page, int)` / `isinstance(limit, int)` /
`isinstance(timestamp_gte, int)` halves of the checks are always true for
the declared `int` arguments and only the numeric bounds remain. -/
def get_transaction_history (clientId : Option String) (inst : Option Nat)
    (csum : String → Option String) (address : String) (limit page : Int)
    (sortOrder : String) (timestampGte : Option Int)
    (http : Except PyExc PyVal) : Except PyExc PyVal :=
  match clientId with
  | Option.none => .error (.valueError "THIRDWEB_CLIENT_ID environment variable is not set.")
  | Option.some _ =>
    match get_w3 inst with
    | Option.none =>
        .error (.connectionError "Web3 connection not available for address validation.")
    | Option.some _ =>
      match csum address with
      | Option.none => .error (.valueError ("Invalid address format: " ++ address))
      | Option.some _ =>
        if page < 0 then .error (.valueError "Page must be a non-negative integer.")
        else if ¬ (1 ≤ limit ∧ limit ≤ 500) then
          .error (.valueError "Limit must be between 1 and 500.")
        else if pyLowerStr sortOrder ∉ ["asc", "desc"] then
          .error (.valueError "sort_order must be asc or desc.")
        else
          match timestampGte with
          | Option.some t =>
              if t < 0 then
                .error (.valueError
                  "timestamp_filter_gte must be a non-negative integer Unix timestamp.")
              else
                match http with
                | .error e => .error (insightHistHandler e)
                | .ok body =>
                    match body with
                    | .map es =>
                        match pyLookup es "data" with
                        | Option.some (.list xs) => .ok (.list xs)
                        | _ =>
                            .error (insightHistHandler (.valueError
                              "Could not parse transaction list from Thirdweb Insight response."))
                    | _ =>
                        .error (insightHistHandler (.valueError
                          "Could not parse transaction list from Thirdweb Insight response."))
          | Option.none =>
              match http with
              | .error e => .error (insightHistHandler e)
              | .ok body =>
                  match body with
                  | .map es =>
                      match pyLookup es "data" with
                      | Option.some (.list xs) => .ok (.list xs)
                      | _ =>
                          .error (insightHistHandler (.valueError
                            "Could not parse transaction list from Thirdweb Insight response."))
                  | _ =>
                      .error (insightHistHandler (.valueError
                        "Could not parse transaction list from Thirdweb Insight response."))

/-- Outcome of `contract_function(*processed_args).call()` in
`read_contract`: the three web3 exception classes with dedicated `except`
clauses, any other exception, or a value. -/
inductive CallRes where
  | contractLogicError (m : String)
  | abiFnNotFound
  | validationErr (m : String)
  | exc (e : PyExc)
  | value (v : PyVal)

/-- One item of a list/tuple contract-call result: large ints become decimal
strings, bytes become hex strings, everything else is kept. -/
def processCallItem (v : PyVal) : PyVal :=
  match v with
  | .int n => if n > 2 ^ 53 then .str (toString n) else .int n
  | .hexBytes bs => .str (hexOfBytes bs)
  | w => w

/-- Result widening of `read_contract`: a large int becomes a decimal
string, bytes become a hex string, a list/tuple is widened per item. -/
def processCallResult (v : PyVal) : PyVal :=
  match v with
  | .int n => if n > 2 ^ 53 then .str (toString n) else .int n
  | .hexBytes bs => .str (hexOfBytes bs)
  | .list xs => .list (xs.map processCallItem)
  | w => w

/-- The contract-call `try` of `read_contract`: a failure to build the
contract object and the in-`try` `ValueError` for a missing function name
fall through to the catch-all (`ConnectionError`); the call outcome is
dispatched by the dedicated `except` clauses (`ContractLogicError`,
`ABIFunctionNotFound`, `ValidationError` become `ValueError`, everything
else `ConnectionError`). -/
def readContractCallPhase (build : Option PyExc) (hasFn : Bool) (call : CallRes)
    (functionName : String) : Except PyExc PyVal :=
  match build with
  | Option.some _ => .error (.connectionError "Could not read contract")
  | Option.none =>
    if ¬ hasFn then .error (.connectionError "Could not read contract")
    else
      match call with
      | .contractLogicError m => .error (.valueError ("Contract execution reverted: " ++ m))
      | .abiFnNotFound =>
          .error (.valueError ("Function " ++ functionName ++ " ABI signature mismatch."))
      | .validationErr m =>
          .error (.valueError ("Invalid arguments for function " ++ functionName ++ ": " ++ m))
      | .exc _ => .error (.connectionError "Could not read contract")
      | .value v => .ok (processCallResult v)

/-- The `except` chain of the ABI-fetch branch of `read_contract` (messages
differ from `get_abi_from_insight` but the structure is the same). -/
def readContractAbiHandler (e : PyExc) : PyExc :=
  match e with
  | .httpStatusError c =>
      if c = 404 then .fileNotFound "ABI not found on Thirdweb Insight (404)."
      else .connectionError ("Failed to fetch ABI: HTTP " ++ toString c)
  | _ => .connectionError "Failed to fetch ABI"

/-- Translation of `monad_service.read_contract`.  The provided `abi` is
falsy (`None` or the empty list) exactly when the fetch branch runs; after
it, `if not isinstance(abi, list) or not abi` only leaves the emptiness
check for the declared list type. -/
def read_contract (inst : Option Nat) (conn : Nat → Bool) (curW3 : Option Nat)
    (clientId : Option String) (csum : String → Option String)
    (contractAddress functionName : String) (abi : Option (List PyVal))
    (http : Except PyExc PyVal) (build : Option PyExc) (hasFn : Bool)
    (call : CallRes) : Option Nat × Except PyExc PyVal :=
  match ensureW3Conn inst conn curW3 "Monad RPC connection not available." with
  | (w3', .error e) => (w3', .error e)
  | (w3', .ok _) =>
    match csum contractAddress with
    | Option.none =>
        (w3', .error (.valueError ("Invalid contract address format: " ++ contractAddress)))
    | Option.some _ =>
      let abiFalsy := match abi with
        | Option.none => true
        | Option.some [] => true
        | Option.some (_ :: _) => false
      let fetched : Except PyExc (List PyVal) :=
        if abiFalsy then
          match clientId with
          | Option.none => .error (.valueError "ABI fetch requires THIRDWEB_CLIENT_ID env var.")
          | Option.some _ =>
              match http with
              | .error e => .error (readContractAbiHandler e)
              | .ok body =>
                  match insightAbiParse body with
                  | Option.some xs => .ok xs
                  | Option.none =>
                      .error (readContractAbiHandler
                        (.valueError "Could not parse ABI list from Insight response."))
        else .ok (abi.getD [])
      match fetched with
      | .error e => (w3', .error e)
      | .ok abiList =>
          if abiList.isEmpty then (w3', .error (.valueError "Invalid or empty ABI."))
          else (w3', readContractCallPhase build hasFn call functionName)

/-! ## Claim C10 -/

/-- C10: `get_user_nft_activity` never rejects a limit: with the API key
set, the connection handle present and a valid address, the call's outcome
for every integer `limit_per_page` is the processed response of the single
request sent with limit `limit_per_page` when it lies within 1..1000 and
with limit 100 otherwise (the warning text notwithstanding), so no
validation error is ever raised on the limit. -/
theorem C10_get_user_nft_activity_limit (meKey : String) (inst : Nat)
    (curW3 : Option Nat) (csum : String → Option String) (addr caddr : String)
    (l : Int) (http : Int → Except PyExc PyVal)
    (hcs : csum addr = Option.some caddr) :
    (get_user_nft_activity (Option.some meKey) (Option.some inst) curW3 csum addr l http).2 =
      meUserActivityRespond (http (if 1 ≤ l ∧ l ≤ 1000 then l else 100)) := by
  cases curW3 <;>
    simp [get_user_nft_activity, ensureW3Plain, refreshW3Plain, get_w3, hcs]

/-- Witness for C10 at concrete inputs: an out-of-range limit 5000 is
replaced by 100. -/
theorem C10_get_user_nft_activity_limit_witness :
    (get_user_nft_activity (Option.some "k") (Option.some 0) Option.none
        (fun _ => Option.some "0xA") "0xa" 5000
        (fun l => .ok (.map [("activities", .list [.int l])]))).2 =
      meUserActivityRespond (.ok (.map [("activities", .list [.int 100])])) := by
  have h := C10_get_user_nft_activity_limit "k" 0 Option.none
    (fun _ => Option.some "0xA") "0xa" "0xA" 5000
    (fun l => .ok (.map [("activities", .list [.int l])])) rfl
  simpa using h

/-! ## Claim C7 -/

/-- An `Except` outcome is a raised `ValueError`. -/
def isValueErrorR {α : Type} : Except PyExc α → Bool
  | .error (.valueError _) => true
  | _ => false

/-- The trending handler always produces `ConnectionError`. -/
theorem meTrendingHandler_conn (e : PyExc) :
    ∃ m, meTrendingHandler e = .connectionError m := by
  cases e <;> exact ⟨_, rfl⟩

/-- The history handler always produces `ConnectionError`. -/
theorem insightHistHandler_conn (e : PyExc) :
    ∃ m, insightHistHandler e = .connectionError m := by
  cases e <;> exact ⟨_, rfl⟩

/-- The response processing of `get_trending_collections` never yields a
`ValueError` (the in-`try` format `ValueError` is downgraded by the
catch-all). -/
theorem trendingRespond_not_valueError (r : Except PyExc PyVal) :
    isValueErrorR (match r with
      | .error e => (.error (meTrendingHandler e) : Except PyExc PyVal)
      | .ok body =>
          match body with
          | .map es =>
              match pyLookup es "collections" with
              | Option.some (.list xs) => .ok (.list xs)
              | _ =>
                  .error (meTrendingHandler
                    (.valueError "Unexpected format from Magic Eden trending endpoint."))
          | _ =>
              .error (meTrendingHandler
                (.valueError "Unexpected format from Magic Eden trending endpoint."))) = false := by
  cases r with
  | error e =>
      obtain ⟨m, hm⟩ := meTrendingHandler_conn e
      simp [hm, isValueErrorR]
  | ok body =>
      cases body with
      | map es =>
          cases hlk : pyLookup es "collections" with
          | none => simp [hlk, isValueErrorR, meTrendingHandler]
          | some v => cases v <;> simp [hlk, isValueErrorR, meTrendingHandler]
      | none => simp [isValueErrorR, meTrendingHandler]
      | bool b => simp [isValueErrorR, meTrendingHandler]
      | int n => simp [isValueErrorR, meTrendingHandler]
      | float t => simp [isValueErrorR, meTrendingHandler]
      | str s => simp [isValueErrorR, meTrendingHandler]
      | hexBytes bs => simp [isValueErrorR, meTrendingHandler]
      | list xs => simp [isValueErrorR, meTrendingHandler]

/-- The response processing of `get_transaction_history` never yields a
`ValueError`. -/
theorem historyRespond_not_valueError (r : Except PyExc PyVal) :
    isValueErrorR (match r with
      | .error e => (.error (insightHistHandler e) : Except PyExc PyVal)
      | .ok body =>
          match body with
          | .map es =>
              match pyLookup es "data" with
              | Option.some (.list xs) => .ok (.list xs)
              | _ =>
                  .error (insightHistHandler (.valueError
                    "Could not parse transaction list from Thirdweb Insight response."))
          | _ =>
              .error (insightHistHandler (.valueError
                "Could not parse transaction list from Thirdweb Insight response."))) = false := by
  cases r with
  | error e =>
      obtain ⟨m, hm⟩ := insightHistHandler_conn e
      simp [hm, isValueErrorR]
  | ok body =>
      cases body with
      | map es =>
          cases hlk : pyLookup es "data" with
          | none => simp [hlk, isValueErrorR, insightHistHandler]
          | some v => cases v <;> simp [hlk, isValueErrorR, insightHistHandler]
      | none => simp [isValueErrorR, insightHistHandler]
      | bool b => simp [isValueErrorR, insightHistHandler]
      | int n => simp [isValueErrorR, insightHistHandler]
      | float t => simp [isValueErrorR, insightHistHandler]
      | str s => simp [isValueErrorR, insightHistHandler]
      | hexBytes bs => simp [isValueErrorR, insightHistHandler]
      | list xs => simp [isValueErrorR, insightHistHandler]

/-- C7: limit validation precedes the HTTP request.  For
`get_trending_collections` (with the API key set): when the limit is out of
1..500 or the lower-cased period or sort key is not allowed, the result is a
`ValueError` whose message does not depend on the HTTP oracle (so no request
is consulted); when all three are valid no `ValueError` is ever raised.
For `get_transaction_history` (with the client id set, the connection
present and the address valid): when the page is negative, the limit out of
1..500, the lower-cased sort order invalid, or a supplied `timestamp_gte`
negative, the result is a `ValueError` independent of the HTTP oracle;
for valid inputs no `ValueError` is ever raised. -/
theorem C7_pre_request_validation :
    ((∀ (k : String) (limit : Int) (period sortBy : String),
      (¬ (1 ≤ limit ∧ limit ≤ 500) ∨ pyLowerStr period ∉ allowed_periods ∨
        pyLowerStr sortBy ∉ allowed_sort) →
      ∃ msg, ∀ http, get_trending_collections (Option.some k) limit period sortBy http =
        .error (.valueError msg)) ∧
     (∀ (k : String) (limit : Int) (period sortBy : String) http,
      (1 ≤ limit ∧ limit ≤ 500) → pyLowerStr period ∈ allowed_periods →
      pyLowerStr sortBy ∈ allowed_sort →
      isValueErrorR (get_trending_collections (Option.some k) limit period sortBy http) =
        false)) ∧
    ((∀ (c : String) (inst : Nat) (csum : String → Option String) (addr caddr : String)
        (limit page : Int) (sortOrder : String) (ts : Option Int),
      csum addr = Option.some caddr →
      (page < 0 ∨ ¬ (1 ≤ limit ∧ limit ≤ 500) ∨ pyLowerStr sortOrder ∉ ["asc", "desc"] ∨
        (∃ t, ts = Option.some t ∧ t < 0)) →
      ∃ msg, ∀ http, get_transaction_history (Option.some c) (Option.some inst) csum addr
        limit page sortOrder ts http = .error (.valueError msg)) ∧
     (∀ (c : String) (inst : Nat) (csum : String → Option String) (addr caddr : String)
        (limit page : Int) (sortOrder : String) (ts : Option Int) http,
      csum addr = Option.some caddr →
      0 ≤ page → (1 ≤ limit ∧ limit ≤ 500) → pyLowerStr sortOrder ∈ ["asc", "desc"] →
      (∀ t, ts = Option.some t → 0 ≤ t) →
      isValueErrorR (get_transaction_history (Option.some c) (Option.some inst) csum addr
        limit page sortOrder ts http) = false)) := by
  refine ⟨⟨?_, ?_⟩, ?_, ?_⟩
  · intro k limit period sortBy hbad
    by_cases hp : pyLowerStr period ∈ allowed_periods
    · by_cases hs : pyLowerStr sortBy ∈ allowed_sort
      · have hl : ¬ (1 ≤ limit ∧ limit ≤ 500) := by tauto
        exact ⟨"Invalid limit value, must be an integer.",
          fun http => by simp [get_trending_collections, hp, hs, hl]⟩
      · exact ⟨"Invalid sortBy: " ++ sortBy,
          fun http => by simp [get_trending_collections, hp, hs]⟩
    · exact ⟨"Invalid period: " ++ period,
        fun http => by simp [get_trending_collections, hp]⟩
  · intro k limit period sortBy http hl hp hs
    simp only [get_trending_collections, if_neg (not_not_intro hp),
      if_neg (not_not_intro hs), if_neg (not_not_intro hl)]
    exact trendingRespond_not_valueError http
  · intro c inst csum addr caddr limit page sortOrder ts hcs hbad
    by_cases hpg : page < 0
    · exact ⟨"Page must be a non-negative integer.",
        fun http => by simp only [get_transaction_history, get_w3, hcs, if_pos hpg]⟩
    · by_cases hl : 1 ≤ limit ∧ limit ≤ 500
      · by_cases hso : pyLowerStr sortOrder ∈ ["asc", "desc"]
        · have hex : ∃ t, ts = Option.some t ∧ t < 0 := by
            rcases hbad with h | h | h | h
            · exact absurd h hpg
            · exact absurd hl h
            · exact absurd hso h
            · exact h
          obtain ⟨t, hts, hneg⟩ := hex
          refine ⟨"timestamp_filter_gte must be a non-negative integer Unix timestamp.",
            fun http => ?_⟩
          simp only [get_transaction_history, get_w3, hcs, if_neg hpg,
            if_neg (not_not_intro hl), if_neg (not_not_intro hso), hts, if_pos hneg]
        · exact ⟨"sort_order must be asc or desc.",
            fun http => by
              simp only [get_transaction_history, get_w3, hcs, if_neg hpg,
                if_neg (not_not_intro hl), if_pos hso]⟩
      · exact ⟨"Limit must be between 1 and 500.",
          fun http => by
            simp only [get_transaction_history, get_w3, hcs, if_neg hpg, if_pos hl]⟩
  · intro c inst csum addr caddr limit page sortOrder ts http hcs hpg hl hso hts
    have hpg' : ¬ page < 0 := by omega
    simp only [get_transaction_history, get_w3, hcs, if_neg hpg',
      if_neg (not_not_intro hl), if_neg (not_not_intro hso)]
    cases ts with
    | none => exact historyRespond_not_valueError http
    | some t =>
        have ht : ¬ t < 0 := by have := hts t rfl; omega
        simp only [if_neg ht]
        exact historyRespond_not_valueError http

/-- Witness for C7 at concrete inputs: an out-of-range limit for trending, a
valid history call. -/
theorem C7_pre_request_validation_witness :
    (∃ msg, ∀ http, get_trending_collections (Option.some "k") 0 "1d" "sales" http =
      .error (.valueError msg)) ∧
    isValueErrorR (get_transaction_history (Option.some "c") (Option.some 0)
      (fun _ => Option.some "0xA") "0xa" 50 0 "desc" Option.none
      (.ok (.map [("data", .list [])]))) = false :=
  ⟨C7_pre_request_validation.1.1 "k" 0 "1d" "sales" (Or.inl (by norm_num)),
   C7_pre_request_validation.2.2 "c" 0 (fun _ => Option.some "0xA") "0xa" "0xA" 50 0 "desc"
     Option.none (.ok (.map [("data", .list [])])) rfl (by norm_num) (by norm_num)
     (by decide) (fun t h => by cases h)⟩

/-! ## Claim C8 -/

/-- The refresh-with-connect step leaves a module global equal to the
startup value unchanged. -/
theorem refreshW3_startup (inst : Option Nat) (conn : Nat → Bool) :
    refreshW3 inst conn (get_w3 inst) = get_w3 inst := by
  cases inst with
  | none => rfl
  | some h => simp only [get_w3, refreshW3]; split <;> rfl

/-- The plain refresh step leaves a module global equal to the startup value
unchanged. -/
theorem refreshW3Plain_startup (inst : Option Nat) :
    refreshW3Plain inst (get_w3 inst) = get_w3 inst := by
  cases inst <;> rfl

/-- The connect preamble does not change a module global equal to the
startup value. -/
theorem ensureW3Conn_fst (inst : Option Nat) (conn : Nat → Bool) (msg : String) :
    (ensureW3Conn inst conn (get_w3 inst) msg).1 = get_w3 inst := by
  have h := refreshW3_startup inst conn
  simp only [ensureW3Conn, h]
  cases hi : get_w3 inst with
  | none => rfl
  | some hd => simp only []; split <;> rfl

/-- The plain preamble does not change a module global equal to the startup
value. -/
theorem ensureW3Plain_fst (inst : Option Nat) (msg : String) :
    (ensureW3Plain inst (get_w3 inst) msg).1 = get_w3 inst := by
  have h := refreshW3Plain_startup inst
  simp only [ensureW3Plain, h]
  cases get_w3 inst <;> rfl

/-- C8: no caching and no persistent state.  The only module-level state a
service operation touches is the module-global `w3`; `w3_instance` itself
never changes after startup, and every refresh of a module global holding
the startup value `get_w3 inst` writes back that same value, so each
operation's final module state equals its initial one.  The embedded
operations are pure functions of their arguments, the environment oracle
values and the remote-response oracles, so no data crosses from one
invocation to the next. -/
theorem C8_no_persistent_state :
    (∀ inst conn, refreshW3 inst conn (get_w3 inst) = get_w3 inst) ∧
    (∀ inst, refreshW3Plain inst (get_w3 inst) = get_w3 inst) ∧
    (∀ inst conn csum address rpcB,
      (get_balance inst conn (get_w3 inst) csum address rpcB).1 = get_w3 inst) ∧
    (∀ inst conn txh rpc,
      (get_transaction inst conn (get_w3 inst) txh rpc).1 = get_w3 inst) ∧
    (∀ inst conn b rpc,
      (get_block inst conn (get_w3 inst) b rpc).1 = get_w3 inst) ∧
    (∀ inst conn zk csum wa http code fuel,
      (get_contract_interactions inst conn (get_w3 inst) zk csum wa http code fuel).1 =
        get_w3 inst) ∧
    (∀ meKey inst csum ca ti http fuel,
      (get_nft_activity meKey inst (get_w3 inst) csum ca ti http fuel).1 = get_w3 inst) ∧
    (∀ meKey inst csum ua l http,
      (get_user_nft_activity meKey inst (get_w3 inst) csum ua l http).1 = get_w3 inst) ∧
    (∀ zk inst csum ua http fuel,
      (get_user_nft_transactions zk inst (get_w3 inst) csum ua http fuel).1 = get_w3 inst) ∧
    (∀ inst conn clientId csum ca fn abi http build hasFn call,
      (read_contract inst conn (get_w3 inst) clientId csum ca fn abi http build hasFn
        call).1 = get_w3 inst) := by
  refine ⟨refreshW3_startup, refreshW3Plain_startup, ?_, ?_, ?_, ?_, ?_, ?_, ?_, ?_⟩
  · intro inst conn csum address rpcB
    unfold get_balance
    cases he : ensureW3Conn inst conn (get_w3 inst) "Monad RPC connection not available." with
    | mk w3' r =>
        have hw : w3' = get_w3 inst := by
          have := ensureW3Conn_fst inst conn "Monad RPC connection not available."
          rw [he] at this; exact this
        cases r <;> simp only [] <;> (repeat' split) <;> simp [hw]
  · intro inst conn txh rpc
    unfold get_transaction
    cases he : ensureW3Conn inst conn (get_w3 inst) "Monad RPC connection not available." with
    | mk w3' r =>
        have hw : w3' = get_w3 inst := by
          have := ensureW3Conn_fst inst conn "Monad RPC connection not available."
          rw [he] at this; exact this
        cases r <;> simp only [] <;> (repeat' split) <;> simp [hw]
  · intro inst conn b rpc
    unfold get_block
    cases he : ensureW3Conn inst conn (get_w3 inst) "Monad RPC connection not available." with
    | mk w3' r =>
        have hw : w3' = get_w3 inst := by
          have := ensureW3Conn_fst inst conn "Monad RPC connection not available."
          rw [he] at this; exact this
        cases r <;> simp only [] <;> (repeat' split) <;> simp [hw]
  · intro inst conn zk csum wa http code fuel
    unfold get_contract_interactions
    cases he : ensureW3Conn inst conn (get_w3 inst) "Monad RPC connection needed." with
    | mk w3' r =>
        have hw : w3' = get_w3 inst := by
          have := ensureW3Conn_fst inst conn "Monad RPC connection needed."
          rw [he] at this; exact this
        cases r <;> simp only [] <;> (repeat' split) <;> simp [hw]
  · intro meKey inst csum ca ti http fuel
    unfold get_nft_activity
    cases meKey with
    | none => rfl
    | some k =>
        cases he : ensureW3Plain inst (get_w3 inst)
            "Web3 connection not available for address validation." with
        | mk w3' r =>
            have hw : w3' = get_w3 inst := by
              have := ensureW3Plain_fst inst
                "Web3 connection not available for address validation."
              rw [he] at this; exact this
            cases r <;> simp only [] <;> (repeat' split) <;> simp [hw]
  · intro meKey inst csum ua l http
    unfold get_user_nft_activity
    cases meKey with
    | none => rfl
    | some k =>
        cases he : ensureW3Plain inst (get_w3 inst)
            "Web3 connection not available for address validation." with
        | mk w3' r =>
            have hw : w3' = get_w3 inst := by
              have := ensureW3Plain_fst inst
                "Web3 connection not available for address validation."
              rw [he] at this; exact this
            cases r <;> simp only [] <;> (repeat' split) <;> simp [hw]
  · intro zk inst csum ua http fuel
    unfold get_user_nft_transactions
    cases zk with
    | none => rfl
    | some k =>
        cases he : ensureW3Plain inst (get_w3 inst)
            "Web3 connection not available for address validation." with
        | mk w3' r =>
            have hw : w3' = get_w3 inst := by
              have := ensureW3Plain_fst inst
                "Web3 connection not available for address validation."
              rw [he] at this; exact this
            cases r <;> simp only [] <;> (repeat' split) <;> simp [hw]
  · intro inst conn clientId csum ca fn abi http build hasFn call
    unfold read_contract
    cases he : ensureW3Conn inst conn (get_w3 inst) "Monad RPC connection not available." with
    | mk w3' r =>
        have hw : w3' = get_w3 inst := by
          have := ensureW3Conn_fst inst conn "Monad RPC connection not available."
          rw [he] at this; exact this
        cases r <;> simp only [] <;> (repeat' split) <;> simp [hw]

/-! ## Claim C3 -/

/-- A well-shaped Magic Eden collections response: a dict whose
`collections` key holds the given array. -/
def mkCollectionsBody (xs : List PyVal) : PyVal :=
  .map [("collections", .list xs)]

/-- Behavior of the collections loop on well-shaped responses: starting at
offset `j`, when the pages at offsets `j, j+100, ..., j+(k-1)*100` all have
at least 100 items and the page at offset `j+k*100` has fewer, the loop
requests exactly the offsets `j, j+100, ..., j+k*100` in order and returns
the accumulated in-order concatenation of those pages. -/
theorem meCollectionsLoop_shaped (cols : Nat → List PyVal) :
    ∀ (k j : Nat) (acc : List PyVal) (trace : List Nat) (fuel : Nat),
    k < fuel →
    (∀ i, i < k → 100 ≤ (cols (j + i * 100)).length) →
    (cols (j + k * 100)).length < 100 →
    meCollectionsLoop (fun off => .ok (mkCollectionsBody (cols off))) fuel j acc trace =
      Option.some (trace ++ (List.range (k + 1)).map (fun i => j + i * 100),
        .ok (acc ++ ((List.range (k + 1)).map (fun i => cols (j + i * 100))).flatten)) := by
  intro k
  induction k with
  | zero =>
      intro j acc trace fuel hf hlt hlast
      match fuel, hf with
      | fuel + 1, _ =>
        simp only [Nat.zero_mul, Nat.add_zero] at hlast
        by_cases hemp : (cols j).isEmpty
        · have hnil : cols j = [] := by simpa [List.isEmpty_iff] using hemp
          simp [meCollectionsLoop, mkCollectionsBody, pyLookup, pyTruthy, pyIter, hnil]
          simp [List.range_succ]
        · simp [meCollectionsLoop, mkCollectionsBody, pyLookup, pyTruthy, pyIter, hemp,
            hlast]
          constructor
          · simp [List.range_succ]
          · simp [List.range_succ]
  | succ k ih =>
      intro j acc trace fuel hf hlt hlast
      match fuel, hf with
      | fuel + 1, hf =>
        have h0 : 100 ≤ (cols (j + 0 * 100)).length := hlt 0 (Nat.succ_pos k)
        simp only [Nat.zero_mul, Nat.add_zero] at h0
        have hne : ¬ (cols j).isEmpty := by
          cases hc : cols j with
          | nil => rw [hc] at h0; simp at h0
          | cons a l => simp
        have hge : ¬ (cols j).length < 100 := by omega
        have step : meCollectionsLoop (fun off => .ok (mkCollectionsBody (cols off)))
            (fuel + 1) j acc trace =
            meCollectionsLoop (fun off => .ok (mkCollectionsBody (cols off))) fuel
              (j + 100) (acc ++ cols j) (trace ++ [j]) := by
          simp [meCollectionsLoop, mkCollectionsBody, pyLookup, pyTruthy, pyIter, hne, hge]
        rw [step]
        have hlt' : ∀ i, i < k → 100 ≤ (cols (j + 100 + i * 100)).length := by
          intro i hi
          have := hlt (i + 1) (by omega)
          have harith : j + (i + 1) * 100 = j + 100 + i * 100 := by ring
          rwa [harith] at this
        have hlast' : (cols (j + 100 + k * 100)).length < 100 := by
          have harith : j + 100 + k * 100 = j + (k + 1) * 100 := by ring
          rwa [harith]
        rw [ih (j + 100) (acc ++ cols j) (trace ++ [j]) fuel (by omega) hlt' hlast']
        have hmap : (List.range (k + 1 + 1)).map (fun i => j + i * 100) =
            j :: (List.range (k + 1)).map (fun i => j + 100 + i * 100) := by
          rw [List.range_succ_eq_map, List.map_cons, List.map_map]
          have : ((fun i => j + i * 100) ∘ Nat.succ) = fun i => j + 100 + i * 100 := by
            funext i; simp only [Function.comp]; omega
          simp [this]
        have hmap2 : (List.range (k + 1 + 1)).map (fun i => cols (j + i * 100)) =
            cols j :: (List.range (k + 1)).map (fun i => cols (j + 100 + i * 100)) := by
          rw [List.range_succ_eq_map, List.map_cons, List.map_map]
          have : ((fun i => cols (j + i * 100)) ∘ Nat.succ) =
              fun i => cols (j + 100 + i * 100) := by
            funext i
            simp only [Function.comp]
            congr 1
            omega
          simp [this]
        rw [hmap, hmap2]
        simp [List.append_assoc]

/-- Behavior of the collections loop on a response that is not a dict with a
`collections` key: the raised `ValueError` is caught by the catch-all and
the loop fails with `ConnectionError`. -/
theorem meCollectionsLoop_badFormat (body : PyVal) (fuel offset : Nat)
    (acc : List PyVal) (trace : List Nat)
    (h : pyHasKey body "collections" = false) (hf : 0 < fuel) :
    meCollectionsLoop (fun _ => .ok body) fuel offset acc trace =
      Option.some (trace ++ [offset],
        .error (.connectionError "Unexpected error during ME fetch")) := by
  match fuel, hf with
  | fuel + 1, _ =>
    cases body with
    | map es =>
        have hlk : pyLookup es "collections" = Option.none := by
          cases hc : pyLookup es "collections" with
          | none => rfl
          | some v => rw [pyHasKey, hc] at h; simp at h
        simp [meCollectionsLoop, hlk, meCollectionsHandler]
    | none => simp [meCollectionsLoop, meCollectionsHandler]
    | bool b => simp [meCollectionsLoop, meCollectionsHandler]
    | int n => simp [meCollectionsLoop, meCollectionsHandler]
    | float t => simp [meCollectionsLoop, meCollectionsHandler]
    | str s => simp [meCollectionsLoop, meCollectionsHandler]
    | hexBytes bs => simp [meCollectionsLoop, meCollectionsHandler]
    | list xs => simp [meCollectionsLoop, meCollectionsHandler]

/-- C3 counterexample: on a response that is not a dict containing a
`collections` key (here a bare JSON array), `get_nft_collection_stats` does
not raise `ValueError` as claimed: the `ValueError` raised inside the `try`
is caught by the `except Exception` clause and re-raised as
`ConnectionError`. -/
theorem C3_counterexample :
    get_nft_collection_stats (Option.some "k") (Option.some 0)
        (fun _ => Option.some "0xA") "0xa" (fun _ => .ok (.list [])) 1 =
      Option.some ([0],
        .error (.connectionError "Unexpected error during ME fetch")) := by
  rfl

/-- C3 (amended): for every wallet address that passes validation,
`get_nft_collection_stats` issues requests with limit 100 at offsets 0, 100,
200, ... in strictly increasing order, appends each response's
`collections` array in arrival order, stops exactly when a fetched page is
empty or has fewer than 100 items, and returns the in-order concatenation of
the fetched pages; a response that is not a dict containing a `collections`
key makes the call fail with `ConnectionError` (the raised `ValueError` is
caught by the loop's catch-all and re-raised). -/
theorem C3_get_nft_collection_stats_pagination :
    (∀ (meKey : String) (inst : Nat) (csum : String → Option String) (wa caddr : String)
       (cols : Nat → List PyVal) (k fuel : Nat),
      csum wa = Option.some caddr → k < fuel →
      (∀ i, i < k → 100 ≤ (cols (i * 100)).length) →
      (cols (k * 100)).length < 100 →
      get_nft_collection_stats (Option.some meKey) (Option.some inst) csum wa
        (fun off => .ok (mkCollectionsBody (cols off))) fuel =
        Option.some ((List.range (k + 1)).map (fun i => i * 100),
          .ok (((List.range (k + 1)).map (fun i => cols (i * 100))).flatten))) ∧
    (∀ (meKey : String) (inst : Nat) (csum : String → Option String) (wa caddr : String)
       (body : PyVal) (fuel : Nat),
      csum wa = Option.some caddr → 0 < fuel → pyHasKey body "collections" = false →
      get_nft_collection_stats (Option.some meKey) (Option.some inst) csum wa
        (fun _ => .ok body) fuel =
        Option.some ([0],
          .error (.connectionError "Unexpected error during ME fetch"))) := by
  constructor
  · intro meKey inst csum wa caddr cols k fuel hcs hf hlt hlast
    have hrun := meCollectionsLoop_shaped cols k 0 [] [] fuel hf
      (by intro i hi; simpa using hlt i hi) (by simpa using hlast)
    simp only [get_nft_collection_stats, get_w3, hcs]
    simpa using hrun
  · intro meKey inst csum wa caddr body fuel hcs hf h
    have hrun := meCollectionsLoop_badFormat body fuel 0 [] [] h hf
    simp only [get_nft_collection_stats, get_w3, hcs]
    simpa using hrun

/-- Witness for C3 at concrete inputs: a single empty page stops the loop at
offset 0 with an empty result. -/
theorem C3_get_nft_collection_stats_pagination_witness :
    get_nft_collection_stats (Option.some "k") (Option.some 0)
        (fun _ => Option.some "0xA") "0xa"
        (fun _ => .ok (mkCollectionsBody [])) 1 =
      Option.some ((List.range 1).map (fun i => i * 100),
        .ok (((List.range 1).map (fun _ => ([] : List PyVal))).flatten)) :=
  C3_get_nft_collection_stats_pagination.1 "k" 0 (fun _ => Option.some "0xA") "0xa" "0xA"
    (fun _ => []) 0 1 rfl (by decide) (fun i hi => absurd hi (by omega)) (by decide)

/-! ## Claim C4 -/

/-- Truthiness of an optional next/continuation URL field. -/
def urlTruthy : Option String → Bool
  | Option.some u => u != ""
  | Option.none => false

/-- A well-shaped Zerion page: a `data` array of positions and an optional
`links.next` URL. -/
def mkPosBody (ps : List PyVal) (nxt : Option String) : PyVal :=
  .map [("data", .list ps),
        ("links", .map (match nxt with
          | Option.some u => [("next", .str u)]
          | Option.none => []))]

/-- A well-shaped Magic Eden activity page: an `activities` array and an
optional `continuation` URL. -/
def mkActBody (acts : List PyVal) (cont : Option String) : PyVal :=
  .map (("activities", .list acts) ::
    (match cont with
     | Option.some u => [("continuation", .str u)]
     | Option.none => []))

/-- Behavior of the Zerion positions loop on well-shaped pages: when the
pages at request ordinals `j, ..., j+k-1` carry truthy next links, the page
at ordinal `j+k` does not, and the token parse succeeds on each of those
pages, the loop terminates and accumulates the in-order concatenation of the
parsed pages. -/
theorem zerionPositionsLoop_shaped (dat : Nat → List PyVal) (nxt : Nat → Option String)
    (toks : Nat → List PyVal) :
    ∀ (k j : Nat) (acc : List PyVal) (fuel : Nat),
    k < fuel →
    (∀ i, i ≤ k → parseZerionTokenData (dat (j + i)) = .ok (toks (j + i))) →
    (∀ i, i < k → urlTruthy (nxt (j + i)) = true) →
    urlTruthy (nxt (j + k)) = false →
    zerionPositionsLoop (fun n => .ok (mkPosBody (dat n) (nxt n))) fuel j acc =
      Option.some (.ok (acc ++ ((List.range (k + 1)).map (fun i => toks (j + i))).flatten)) := by
  intro k
  induction k with
  | zero =>
      intro j acc fuel hf hp hlt hlast
      match fuel, hf with
      | fuel + 1, _ =>
        have hp0 := hp 0 (Nat.le_refl 0)
        simp only [Nat.add_zero] at hp0 hlast
        cases hn : nxt j with
        | none =>
            simp [zerionPositionsLoop, mkPosBody, pyGet, pyLookup, pyIter, hn, hp0,
              pyTruthy, List.range_succ, bind, Except.bind, Except.map, Functor.map, pure, Except.pure]
        | some u =>
            have hu : u = "" := by
              rw [hn] at hlast; simpa [urlTruthy] using hlast
            simp [zerionPositionsLoop, mkPosBody, pyGet, pyLookup, pyIter, hn, hu, hp0,
              pyTruthy, List.range_succ, bind, Except.bind, Except.map, Functor.map, pure, Except.pure]
  | succ k ih =>
      intro j acc fuel hf hp hlt hlast
      match fuel, hf with
      | fuel + 1, hf =>
        have hp0 := hp 0 (Nat.zero_le _)
        simp only [Nat.add_zero] at hp0
        have h0 := hlt 0 (Nat.succ_pos k)
        simp only [Nat.add_zero] at h0
        obtain ⟨u, hu, hne⟩ : ∃ u, nxt j = Option.some u ∧ (u != "") = true := by
          cases hn : nxt j with
          | none => rw [hn] at h0; simp [urlTruthy] at h0
          | some u => exact ⟨u, rfl, by rw [hn] at h0; simpa [urlTruthy] using h0⟩
        have step : zerionPositionsLoop (fun n => .ok (mkPosBody (dat n) (nxt n)))
            (fuel + 1) j acc =
            zerionPositionsLoop (fun n => .ok (mkPosBody (dat n) (nxt n))) fuel
              (j + 1) (acc ++ toks j) := by
          simp [zerionPositionsLoop, mkPosBody, pyGet, pyLookup, pyIter, hu, hp0,
            pyTruthy, hne, bind, Except.bind, Except.map, Functor.map, pure, Except.pure]
        rw [step]
        have hp' : ∀ i, i ≤ k → parseZerionTokenData (dat (j + 1 + i)) = .ok (toks (j + 1 + i)) := by
          intro i hi
          have := hp (i + 1) (by omega)
          have harith : j + (i + 1) = j + 1 + i := by omega
          rwa [harith] at this
        have hlt' : ∀ i, i < k → urlTruthy (nxt (j + 1 + i)) = true := by
          intro i hi
          have := hlt (i + 1) (by omega)
          have harith : j + (i + 1) = j + 1 + i := by omega
          rwa [harith] at this
        have hlast' : urlTruthy (nxt (j + 1 + k)) = false := by
          have harith : j + 1 + k = j + (k + 1) := by omega
          rwa [harith]
        rw [ih (j + 1) (acc ++ toks j) fuel (by omega) hp' hlt' hlast']
        have hmap2 : (List.range (k + 1 + 1)).map (fun i => toks (j + i)) =
            toks j :: (List.range (k + 1)).map (fun i => toks (j + 1 + i)) := by
          rw [List.range_succ_eq_map, List.map_cons, List.map_map]
          have : ((fun i => toks (j + i)) ∘ Nat.succ) = fun i => toks (j + 1 + i) := by
            funext i
            simp only [Function.comp]
            congr 1
            omega
          simp [this]
        rw [hmap2]
        simp [List.append_assoc]

/-- Behavior of the Magic Eden activity loop on well-shaped pages: same
statement as for the Zerion positions loop, except that the first page must
be non-empty when the loop starts at request ordinal 0 (else the
empty-first-page break fires). -/
theorem meActivityLoop_shaped (acts : Nat → List PyVal) (cont : Nat → Option String) :
    ∀ (k j : Nat) (acc : List PyVal) (fuel : Nat),
    k < fuel →
    (acts j ≠ [] ∨ j ≠ 0) →
    (∀ i, i < k → urlTruthy (cont (j + i)) = true) →
    urlTruthy (cont (j + k)) = false →
    meActivityLoop (fun n => .ok (mkActBody (acts n) (cont n))) fuel j acc =
      Option.some (.ok (acc ++ ((List.range (k + 1)).map (fun i => acts (j + i))).flatten)) := by
  intro k
  induction k with
  | zero =>
      intro j acc fuel hf hfirst hlt hlast
      match fuel, hf with
      | fuel + 1, _ =>
        simp only [Nat.add_zero] at hlast
        have hbreak : ¬ (¬ pyTruthy (.list (acts j)) = true ∧ j = 0) := by
          rcases hfirst with h | h
          · intro hc
            exact hc.1 (by simpa [pyTruthy, List.isEmpty_iff] using h)
          · intro hc
            exact h hc.2
        cases hn : cont j with
        | none =>
            simp [meActivityLoop, mkActBody, pyLookup, pyIter, hn, pyTruthy, hbreak,
              List.range_succ]
            intro h _
            exact h
        | some u =>
            have hu : u = "" := by
              rw [hn] at hlast; simpa [urlTruthy] using hlast
            simp [meActivityLoop, mkActBody, pyLookup, pyIter, hn, hu, pyTruthy, hbreak,
              List.range_succ]
            intro h _
            exact h
  | succ k ih =>
      intro j acc fuel hf hfirst hlt hlast
      match fuel, hf with
      | fuel + 1, hf =>
        have h0 := hlt 0 (Nat.succ_pos k)
        simp only [Nat.add_zero] at h0
        obtain ⟨u, hu, hne⟩ : ∃ u, cont j = Option.some u ∧ (u != "") = true := by
          cases hn : cont j with
          | none => rw [hn] at h0; simp [urlTruthy] at h0
          | some u => exact ⟨u, rfl, by rw [hn] at h0; simpa [urlTruthy] using h0⟩
        have hbreak : ¬ (¬ pyTruthy (.list (acts j)) = true ∧ j = 0) := by
          rcases hfirst with h | h
          · intro hc
            exact hc.1 (by simpa [pyTruthy, List.isEmpty_iff] using h)
          · intro hc
            exact h hc.2
        have step : meActivityLoop (fun n => .ok (mkActBody (acts n) (cont n)))
            (fuel + 1) j acc =
            meActivityLoop (fun n => .ok (mkActBody (acts n) (cont n))) fuel
              (j + 1) (acc ++ acts j) := by
          simp [meActivityLoop, mkActBody, pyLookup, pyIter, hu, pyTruthy, hne, hbreak]
          intro h1 h2
          exact absurd ⟨by simp [pyTruthy, h1], h2⟩ hbreak
        rw [step]
        have hlt' : ∀ i, i < k → urlTruthy (cont (j + 1 + i)) = true := by
          intro i hi
          have := hlt (i + 1) (by omega)
          have harith : j + (i + 1) = j + 1 + i := by omega
          rwa [harith] at this
        have hlast' : urlTruthy (cont (j + 1 + k)) = false := by
          have harith : j + 1 + k = j + (k + 1) := by omega
          rwa [harith]
        rw [ih (j + 1) (acc ++ acts j) fuel (by omega) (Or.inr (Nat.succ_ne_zero j)) hlt'
          hlast']
        have hmap2 : (List.range (k + 1 + 1)).map (fun i => acts (j + i)) =
            acts j :: (List.range (k + 1)).map (fun i => acts (j + 1 + i)) := by
          rw [List.range_succ_eq_map, List.map_cons, List.map_map]
          have : ((fun i => acts (j + i)) ∘ Nat.succ) = fun i => acts (j + 1 + i) := by
            funext i
            simp only [Function.comp]
            congr 1
            omega
          simp [this]
        rw [hmap2]
        simp [List.append_assoc]

/-- An empty first Magic Eden activity page stops the loop with an empty
result, whatever its continuation field says. -/
theorem meActivityLoop_emptyFirst (acts : Nat → List PyVal) (cont : Nat → Option String)
    (fuel : Nat) (hf : 0 < fuel) (h0 : acts 0 = []) :
    meActivityLoop (fun n => .ok (mkActBody (acts n) (cont n))) fuel 0 [] =
      Option.some (.ok []) := by
  match fuel, hf with
  | fuel + 1, _ => simp [meActivityLoop, mkActBody, pyLookup, pyTruthy, h0]

/-- A Zerion page with an empty `data` array and a non-empty `links.next`
URL. -/
def zerionEmptyNextPage : PyVal :=
  mkPosBody [] (Option.some "https://api.zerion.io/v1/next")

/-- C4 counterexample: the claim's precondition admits an empty first page,
but the Zerion positions loop has no empty-first-page break: on a stream
whose every page is empty with a next link (so the first page is empty), the
loop never terminates — it exhausts every fuel bound — and so does
`get_monad_erc20_balances` built on it. -/
theorem C4_counterexample :
    (∀ fuel j acc, zerionPositionsLoop (fun _ => .ok zerionEmptyNextPage) fuel j acc =
      Option.none) ∧
    (∀ fuel, get_monad_erc20_balances (Option.some "zk") (Option.some 0)
      (fun _ => Option.some "0xA") "0xa" (fun _ => .ok zerionEmptyNextPage) fuel =
      Option.none) ∧
    pyGet zerionEmptyNextPage "data" (.list []) = .ok (.list []) := by
  have hloop : ∀ fuel j acc, zerionPositionsLoop (fun _ => .ok zerionEmptyNextPage) fuel j acc =
      Option.none := by
    intro fuel
    induction fuel with
    | zero => intro j acc; rfl
    | succ n ih =>
        intro j acc
        have step : zerionPositionsLoop (fun _ => .ok zerionEmptyNextPage) (n + 1) j acc =
            zerionPositionsLoop (fun _ => .ok zerionEmptyNextPage) n (j + 1) (acc ++ []) := by
          simp [zerionPositionsLoop, zerionEmptyNextPage, mkPosBody, pyGet, pyLookup,
            pyIter, parseZerionTokenData, pyTruthy, bind, Except.bind, Except.map,
            Functor.map, pure, Except.pure]
        rw [step]
        exact ih (j + 1) (acc ++ [])
  refine ⟨hloop, fun fuel => ?_, rfl⟩
  simp [get_monad_erc20_balances, get_w3, hloop fuel 0 []]

/-- C4 (amended): the two cited opaque-cursor loops fetch pages strictly
sequentially and accumulate the in-order concatenation of the pages
received, and they terminate under these preconditions: the Zerion
positions loop terminates exactly when some page eventually carries no
truthy `links.next` (an empty first page alone does not stop it, as the
counterexample shows); the Magic Eden activity loop terminates when the
first page is empty or when some page eventually carries no truthy
`continuation`. -/
theorem C4_pagination_loop_termination :
    (∀ (dat : Nat → List PyVal) (nxt : Nat → Option String) (toks : Nat → List PyVal)
       (k fuel : Nat),
      k < fuel →
      (∀ i, i ≤ k → parseZerionTokenData (dat i) = .ok (toks i)) →
      (∀ i, i < k → urlTruthy (nxt i) = true) →
      urlTruthy (nxt k) = false →
      zerionPositionsLoop (fun n => .ok (mkPosBody (dat n) (nxt n))) fuel 0 [] =
        Option.some (.ok (((List.range (k + 1)).map toks).flatten))) ∧
    (∀ (acts : Nat → List PyVal) (cont : Nat → Option String) (k fuel : Nat),
      k < fuel →
      acts 0 ≠ [] →
      (∀ i, i < k → urlTruthy (cont i) = true) →
      urlTruthy (cont k) = false →
      meActivityLoop (fun n => .ok (mkActBody (acts n) (cont n))) fuel 0 [] =
        Option.some (.ok (((List.range (k + 1)).map acts).flatten))) ∧
    (∀ (acts : Nat → List PyVal) (cont : Nat → Option String) (fuel : Nat),
      0 < fuel → acts 0 = [] →
      meActivityLoop (fun n => .ok (mkActBody (acts n) (cont n))) fuel 0 [] =
        Option.some (.ok [])) := by
  refine ⟨?_, ?_, ?_⟩
  · intro dat nxt toks k fuel hf hp hlt hlast
    have := zerionPositionsLoop_shaped dat nxt toks k 0 [] fuel hf
      (by intro i hi; simpa using hp i hi)
      (by intro i hi; simpa using hlt i hi) (by simpa using hlast)
    simpa using this
  · intro acts cont k fuel hf hfirst hlt hlast
    have := meActivityLoop_shaped acts cont k 0 [] fuel hf (Or.inl hfirst)
      (by intro i hi; simpa using hlt i hi) (by simpa using hlast)
    simpa using this
  · intro acts cont fuel hf h0
    exact meActivityLoop_emptyFirst acts cont fuel hf h0

/-- Witness for C4 at concrete inputs: a single page with no next link for
the Zerion loop, a single non-empty page with no continuation for the Magic
Eden loop. -/
theorem C4_pagination_loop_termination_witness :
    zerionPositionsLoop (fun n => .ok (mkPosBody [] ((fun _ => Option.none) n))) 1 0 [] =
      Option.some (.ok (((List.range 1).map (fun _ => ([] : List PyVal))).flatten)) ∧
    meActivityLoop (fun n => .ok (mkActBody ((fun _ => [PyVal.int 1]) n)
        ((fun _ => Option.none) n))) 1 0 [] =
      Option.some (.ok (((List.range 1).map (fun _ => [PyVal.int 1])).flatten)) :=
  ⟨C4_pagination_loop_termination.1 (fun _ => []) (fun _ => Option.none) (fun _ => []) 0 1
      (by decide) (fun i _ => rfl) (fun i hi => absurd hi (by omega)) rfl,
   C4_pagination_loop_termination.2.1 (fun _ => [PyVal.int 1]) (fun _ => Option.none) 0 1
      (by decide) (by simp) (fun i hi => absurd hi (by omega)) rfl⟩

/-! ## Claim C5 -/

/-- A Zerion transactions page whose first (and only) entry has a type other
than `transactions`. -/
def zerionNonTxFirstPage : PyVal :=
  .map [("data", .list [.map [("type", .str "trades")]]), ("links", .map [])]

/-- C5: evaluation of `get_contract_interactions` at the failing input.  The
source's `if sent_to:` test is dedented out of the
`if tx.get('type') == 'transactions':` branch, so on a page whose first
entry is not of type `transactions` it reads the never-assigned local
`sent_to` and raises `UnboundLocalError`, which the loop's catch-all turns
into `ConnectionError`: the call aborts instead of ignoring the entry as the
claim (and the clear intent of the code) says. -/
theorem C5_contract_interactions_unbound_local :
    get_contract_interactions (Option.some 0) (fun _ => true) (Option.some 0)
        (Option.some "zk") (fun _ => Option.some "0xA") "0xa"
        (fun _ => .ok zerionNonTxFirstPage) (fun _ => .ok []) 1 =
      (Option.some 0, Option.some (.error
        (.connectionError "Unexpected error during Zerion fetch"))) := by
  rfl

/-! ## Claim C2 -/

/-- An `Except` outcome whose error, if any, is one of the four typed error
classes. -/
def excTyped {β : Type} : Except PyExc β → Bool
  | .error e => e.isTyped
  | .ok _ => true

@[simp] theorem excTyped_error {β : Type} (e : PyExc) :
    excTyped (Except.error e : Except PyExc β) = e.isTyped := rfl

@[simp] theorem excTyped_ok {β : Type} (v : β) :
    excTyped (Except.ok v : Except PyExc β) = true := rfl

/-- Typedness through an optional (fuelled) outcome. -/
def optExcTyped {β : Type} : Option (Except PyExc β) → Bool
  | Option.some (.error e) => e.isTyped
  | _ => true

/-- Typedness through a fuelled outcome carrying a request trace. -/
def optTrExcTyped {β : Type} : Option (List Nat × Except PyExc β) → Bool
  | Option.some (_, .error e) => e.isTyped
  | _ => true

@[simp] theorem optExcTyped_none {β : Type} :
    optExcTyped (Option.none : Option (Except PyExc β)) = true := rfl

@[simp] theorem optExcTyped_some {β : Type} (r : Except PyExc β) :
    optExcTyped (Option.some r) = excTyped r := by cases r <;> rfl

@[simp] theorem optTrExcTyped_none {β : Type} :
    optTrExcTyped (Option.none : Option (List Nat × Except PyExc β)) = true := rfl

@[simp] theorem optTrExcTyped_some {β : Type} (tr : List Nat) (r : Except PyExc β) :
    optTrExcTyped (Option.some (tr, r)) = excTyped r := by cases r <;> rfl

/-- Typedness up to the `AttributeError` that the out-of-`try` sort of
`get_monad_erc20_balances` can raise. -/
def optExcTypedOrAttr {β : Type} : Option (Except PyExc β) → Bool
  | Option.some (.error (.other cls _)) => cls == "AttributeError"
  | Option.some (.error e) => e.isTyped
  | _ => true

/-- Every Magic Eden collections handler result is typed. -/
@[simp] theorem meCollectionsHandler_typed (e : PyExc) : (meCollectionsHandler e).isTyped = true := by
  cases e <;> rfl

/-- Every Magic Eden activity handler result is typed. -/
@[simp] theorem meActivityHandler_typed (e : PyExc) : (meActivityHandler e).isTyped = true := by
  cases e <;> rfl

/-- Every Magic Eden user-activity handler result is typed. -/
@[simp] theorem meUserActivityHandler_typed (e : PyExc) :
    (meUserActivityHandler e).isTyped = true := by
  cases e <;> rfl

/-- Every Magic Eden trending handler result is typed. -/
@[simp] theorem meTrendingHandler_typed (e : PyExc) : (meTrendingHandler e).isTyped = true := by
  cases e <;> rfl

/-- Every Zerion positions handler result is typed. -/
@[simp] theorem zerionPosHandler_typed (e : PyExc) : (zerionPosHandler e).isTyped = true := by
  cases e <;> rfl

/-- Every Zerion transactions handler result is typed. -/
@[simp] theorem zerionTxHandler_typed (e : PyExc) : (zerionTxHandler e).isTyped = true := by
  cases e <;> rfl

/-- Every Zerion NFT-transactions handler result is typed. -/
@[simp] theorem zerionNftTxHandler_typed (e : PyExc) : (zerionNftTxHandler e).isTyped = true := by
  cases e <;> rfl

/-- Every Insight ABI handler result is typed. -/
@[simp] theorem insightAbiHandler_typed (e : PyExc) : (insightAbiHandler e).isTyped = true := by
  cases e <;> first | rfl | (simp only [insightAbiHandler]; split <;> rfl)

/-- Every Insight history handler result is typed. -/
@[simp] theorem insightHistHandler_typed (e : PyExc) : (insightHistHandler e).isTyped = true := by
  cases e <;> rfl

/-- Every `read_contract` ABI-fetch handler result is typed. -/
@[simp] theorem readContractAbiHandler_typed (e : PyExc) :
    (readContractAbiHandler e).isTyped = true := by
  cases e <;> first | rfl | (simp only [readContractAbiHandler]; split <;> rfl)

/-- Every error escaping the collections loop is typed. -/
@[simp] theorem meCollectionsLoop_typed (http : Nat → Except PyExc PyVal) :
    ∀ (fuel offset : Nat) (acc : List PyVal) (trace : List Nat),
    optTrExcTyped (meCollectionsLoop http fuel offset acc trace) = true := by
  intro fuel
  induction fuel with
  | zero => intro offset acc trace; rfl
  | succ n ih =>
      intro offset acc trace
      simp only [meCollectionsLoop]
      repeat' split
      all_goals
        first
        | exact ih _ _ _
        | simp [optTrExcTyped, meCollectionsHandler_typed]

/-- Every error escaping the activity loop is typed. -/
@[simp] theorem meActivityLoop_typed (http : Nat → Except PyExc PyVal) :
    ∀ (fuel pageIdx : Nat) (acc : List PyVal),
    optExcTyped (meActivityLoop http fuel pageIdx acc) = true := by
  intro fuel
  induction fuel with
  | zero => intro pageIdx acc; rfl
  | succ n ih =>
      intro pageIdx acc
      simp only [meActivityLoop]
      repeat' split
      all_goals
        first
        | exact ih _ _
        | simp [optExcTyped, meActivityHandler_typed]

/-- Every error escaping the Zerion positions loop is typed. -/
@[simp] theorem zerionPositionsLoop_typed (http : Nat → Except PyExc PyVal) :
    ∀ (fuel pageIdx : Nat) (acc : List PyVal),
    optExcTyped (zerionPositionsLoop http fuel pageIdx acc) = true := by
  intro fuel
  induction fuel with
  | zero => intro pageIdx acc; rfl
  | succ n ih =>
      intro pageIdx acc
      simp only [zerionPositionsLoop]
      repeat' split
      all_goals
        first
        | exact ih _ _
        | simp [optExcTyped, zerionPosHandler_typed]

/-- Every error escaping the Zerion interactions loop is typed. -/
@[simp] theorem zerionInteractionsLoop_typed (http : Nat → Except PyExc PyVal) :
    ∀ (fuel pageIdx : Nat) (st : Option PyVal) (iaddrs : List String) (total : Nat),
    optExcTyped (zerionInteractionsLoop http fuel pageIdx st iaddrs total) = true := by
  intro fuel
  induction fuel with
  | zero => intro pageIdx st iaddrs total; rfl
  | succ n ih =>
      intro pageIdx st iaddrs total
      simp only [zerionInteractionsLoop]
      repeat' split
      all_goals
        first
        | exact ih _ _ _ _
        | simp [optExcTyped, zerionTxHandler_typed]

/-- Every error escaping the Zerion NFT transactions loop is typed. -/
@[simp] theorem zerionNftTxLoop_typed (http : Nat → Except PyExc PyVal) :
    ∀ (fuel pageIdx : Nat) (acc : List PyVal),
    optExcTyped (zerionNftTxLoop http fuel pageIdx acc) = true := by
  intro fuel
  induction fuel with
  | zero => intro pageIdx acc; rfl
  | succ n ih =>
      intro pageIdx acc
      simp only [zerionNftTxLoop]
      repeat' split
      all_goals
        first
        | exact ih _ _
        | simp [optExcTyped, zerionNftTxHandler_typed]

/-- Classification of the errors the sort-key phase can produce: success or
an `AttributeError`-class exception. -/
def attrClassErr {β : Type} : Except PyExc β → Bool
  | .error (.other cls _) => cls == "AttributeError"
  | .error _ => false
  | .ok _ => true

/-- `d.get` fails only with `AttributeError`. -/
theorem pyGet_attrClass (v : PyVal) (k : String) (d : PyVal) :
    attrClassErr (pyGet v k d) = true := by
  unfold pyGet
  repeat' split
  all_goals rfl

/-- `.lower()` fails only with `AttributeError`. -/
theorem pyLower_attrClass (v : PyVal) : attrClassErr (pyLower v) = true := by
  unfold pyLower
  split <;> rfl

/-- The sort-key computation fails only with `AttributeError`. -/
theorem tokenSortKeys_attrClass (tokens : List PyVal) :
    attrClassErr (tokenSortKeys tokens) = true := by
  induction tokens with
  | nil => rfl
  | cons t rest ih =>
      simp only [tokenSortKeys, bind, Except.bind]
      cases hg : pyGet t "name" (.str "") with
      | error e =>
          have h := pyGet_attrClass t "name" (.str "")
          rw [hg] at h
          cases e <;> simp_all [attrClassErr]
      | ok nameV =>
          cases hl : pyLower nameV with
          | error e =>
              have h := pyLower_attrClass nameV
              rw [hl] at h
              cases e <;> simp_all [attrClassErr]
          | ok key =>
              cases hk : tokenSortKeys rest with
              | error e =>
                  rw [hk] at ih
                  cases e <;> simp_all [attrClassErr]
              | ok ks => simp [attrClassErr, hl, hk, pure, Except.pure]

/-- The final sort of `get_monad_erc20_balances` fails only with
`AttributeError`. -/
theorem sortTokensByName_attrClass (tokens : List PyVal) :
    attrClassErr (sortTokensByName tokens) = true := by
  simp only [sortTokensByName, bind, Except.bind]
  cases hk : tokenSortKeys tokens with
  | error e =>
      have h := tokenSortKeys_attrClass tokens
      rw [hk] at h
      cases e <;> simp_all [attrClassErr]
  | ok ks => rfl

/-- Bridge: an `AttributeError`-classified outcome satisfies the
typed-or-`AttributeError` predicate. -/
theorem optOrAttr_of_attrClass (r : Except PyExc (List PyVal))
    (h : attrClassErr r = true) : optExcTypedOrAttr (Option.some r) = true := by
  cases r with
  | ok v => rfl
  | error e => cases e <;> simp_all [attrClassErr, optExcTypedOrAttr, PyExc.isTyped]

/-- Bridge: a typed error satisfies the typed-or-`AttributeError`
predicate. -/
theorem optOrAttr_of_typed (e : PyExc) (h : e.isTyped = true) :
    optExcTypedOrAttr (Option.some (Except.error e : Except PyExc (List PyVal))) = true := by
  cases e <;> simp_all [optExcTypedOrAttr, PyExc.isTyped]

/-- The contract-call phase of `read_contract` raises only typed errors. -/
@[simp] theorem readContractCallPhase_typed (b : Option PyExc) (f : Bool) (c : CallRes)
    (fn : String) : excTyped (readContractCallPhase b f c fn) = true := by
  unfold readContractCallPhase
  repeat' split
  all_goals rfl

/-- The user-activity response processing raises only typed errors. -/
@[simp] theorem meUserActivityRespond_typed (r : Except PyExc PyVal) :
    excTyped (meUserActivityRespond r) = true := by
  unfold meUserActivityRespond
  repeat' split
  all_goals simp [excTyped, meUserActivityHandler_typed]

/-- A Zerion positions page whose single position carries a non-string token
name. -/
def erc20BadNamePage : PyVal :=
  mkPosBody [.map [("type", .str "positions"),
    ("attributes", .map [("fungible_info", .map [("name", .int 1)]),
                         ("quantity", .map [("numeric", .str "0")])])]] Option.none

/-- C2 counterexample: `get_monad_erc20_balances` can let an untyped
exception escape.  When a remote position's `fungible_info.name` is not a
string, the sort key `x.get('name', '').lower()` of the final
`return sorted(...)` — which sits outside every `try` block — raises
`AttributeError`, which is none of the four typed errors. -/
theorem C2_counterexample :
    get_monad_erc20_balances (Option.some "zk") (Option.some 0)
        (fun _ => Option.some "0xA") "0xa" (fun _ => .ok erc20BadNamePage) 1 =
      Option.some (.error (.other "AttributeError" "object has no attribute lower")) ∧
    (PyExc.other "AttributeError" "object has no attribute lower").isTyped = false :=
  ⟨rfl, rfl⟩

/-- The connect preamble fails only with `ConnectionError`. -/
theorem ensureW3Conn_err_typed (inst : Option Nat) (conn : Nat → Bool) (cur : Option Nat)
    (msg : String) (w3' : Option Nat) (e : PyExc)
    (h : ensureW3Conn inst conn cur msg = (w3', .error e)) : e.isTyped = true := by
  unfold ensureW3Conn at h
  cases hr : refreshW3 inst conn cur with
  | none =>
      rw [hr] at h
      simp only [Prod.mk.injEq] at h
      obtain ⟨h1, h2⟩ := h
      injection h2 with h3
      subst h3
      rfl
  | some hd =>
      rw [hr] at h
      dsimp only [] at h
      split at h
      · simp only [Prod.mk.injEq] at h
        exact Except.noConfusion h.2
      · simp only [Prod.mk.injEq] at h
        obtain ⟨h1, h2⟩ := h
        injection h2 with h3
        subst h3
        rfl

/-- The plain preamble fails only with `ConnectionError`. -/
theorem ensureW3Plain_err_typed (inst : Option Nat) (cur : Option Nat)
    (msg : String) (w3' : Option Nat) (e : PyExc)
    (h : ensureW3Plain inst cur msg = (w3', .error e)) : e.isTyped = true := by
  unfold ensureW3Plain at h
  cases hr : refreshW3Plain inst cur with
  | none =>
      rw [hr] at h
      simp only [Prod.mk.injEq] at h
      obtain ⟨h1, h2⟩ := h
      injection h2 with h3
      subst h3
      rfl
  | some hd =>
      rw [hr] at h
      simp only [Prod.mk.injEq] at h
      exact Except.noConfusion h.2

/-- The identifier validation of `get_block` raises only typed errors. -/
theorem get_block_validate_err_typed (b : BlockIdent) (e : PyExc)
    (h : get_block_validate b = .error e) : e.isTyped = true := by
  cases b with
  | str s =>
      simp only [get_block_validate] at h
      by_cases ht : pyLowerStr s ∈ ["latest", "earliest", "pending"]
      · rw [if_pos ht] at h; exact Except.noConfusion h
      · rw [if_neg ht] at h
        cases hp : pyIntOfString s with
        | none => rw [hp] at h; injection h with h3; subst h3; rfl
        | some n =>
            rw [hp] at h
            dsimp only [] at h
            by_cases hn : n ≥ 0
            · rw [if_pos hn] at h; exact Except.noConfusion h
            · rw [if_neg hn] at h; injection h with h3; subst h3; rfl
  | int n =>
      simp only [get_block_validate] at h
      by_cases hn : n < 0
      · rw [if_pos hn] at h; injection h with h3; subst h3; rfl
      · rw [if_neg hn] at h; exact Except.noConfusion h
  | nonStrInt =>
      simp only [get_block_validate] at h
      injection h with h3
      subst h3
      rfl

/-- The post-fetch tail of `read_contract` raises only typed errors. -/
@[simp] theorem readContractTail_typed (xs : List PyVal) (w : Option Nat)
    (build : Option PyExc) (hasFn : Bool) (call : CallRes) (fn : String) :
    excTyped (if xs.isEmpty = true then
        (w, Except.error (PyExc.valueError "Invalid or empty ABI."))
      else (w, readContractCallPhase build hasFn call fn)).2 = true := by
  split <;> simp

/-- C2 (amended): every exception escaping the embedded public service
operations is one of the four typed errors (`ValueError`, `TypeError`,
`FileNotFoundError`, `ConnectionError`) — internal failures injected by the
oracles (network errors, unexpected response shapes, parsing errors) are
caught and re-raised as `ConnectionError` — with one exception:
`get_monad_erc20_balances` may let an `AttributeError` escape, because the
key function of its final `sorted(...)` runs outside every `try` block and
`.lower()` on a non-string token name raises there. -/
theorem C2_typed_errors :
    (∀ inst conn curW3 csum addr rpcB,
      excTyped (get_balance inst conn curW3 csum addr rpcB).2 = true) ∧
    (∀ inst conn curW3 txh rpc,
      excTyped (get_transaction inst conn curW3 txh rpc).2 = true) ∧
    (∀ inst conn curW3 b rpc,
      excTyped (get_block inst conn curW3 b rpc).2 = true) ∧
    (∀ inst conn curW3 clientId csum ca fn abi http build hasFn call,
      excTyped (read_contract inst conn curW3 clientId csum ca fn abi http build hasFn
        call).2 = true) ∧
    (∀ clientId inst csum ca http,
      excTyped (get_abi_from_insight clientId inst csum ca http) = true) ∧
    (∀ clientId inst csum addr limit page sortOrder ts http,
      excTyped (get_transaction_history clientId inst csum addr limit page sortOrder ts
        http) = true) ∧
    (∀ meKey limit period sortBy http,
      excTyped (get_trending_collections meKey limit period sortBy http) = true) ∧
    (∀ meKey inst curW3 csum ua l http,
      excTyped (get_user_nft_activity meKey inst curW3 csum ua l http).2 = true) ∧
    (∀ meKey inst curW3 csum ca ti http fuel,
      optExcTyped (get_nft_activity meKey inst curW3 csum ca ti http fuel).2 = true) ∧
    (∀ meKey inst csum wa http fuel,
      optTrExcTyped (get_nft_collection_stats meKey inst csum wa http fuel) = true) ∧
    (∀ inst conn curW3 zk csum wa http code fuel,
      optExcTyped (get_contract_interactions inst conn curW3 zk csum wa http code
        fuel).2 = true) ∧
    (∀ zk inst curW3 csum ua http fuel,
      optExcTyped (get_user_nft_transactions zk inst curW3 csum ua http fuel).2 = true) ∧
    (∀ zk inst csum addr http fuel,
      optExcTypedOrAttr (get_monad_erc20_balances zk inst csum addr http fuel) = true) := by
  refine ⟨?_, ?_, ?_, ?_, ?_, ?_, ?_, ?_, ?_, ?_, ?_, ?_, ?_⟩
  · intro inst conn curW3 csum addr rpcB
    unfold get_balance
    cases he : ensureW3Conn inst conn curW3 "Monad RPC connection not available." with
    | mk w3' r =>
        cases r with
        | error e => simpa [excTyped] using ensureW3Conn_err_typed _ _ _ _ _ _ he
        | ok hnd =>
            repeat' split
            all_goals simp_all [excTyped, PyExc.isTyped]
  · intro inst conn curW3 txh rpc
    unfold get_transaction
    cases he : ensureW3Conn inst conn curW3 "Monad RPC connection not available." with
    | mk w3' r =>
        cases r with
        | error e => simpa [excTyped] using ensureW3Conn_err_typed _ _ _ _ _ _ he
        | ok hnd =>
            repeat' split
            all_goals simp_all [excTyped, PyExc.isTyped]
  · intro inst conn curW3 b rpc
    unfold get_block get_block_fetch
    cases he : ensureW3Conn inst conn curW3 "Monad RPC connection not available." with
    | mk w3' r =>
        cases r with
        | error e => simpa [excTyped] using ensureW3Conn_err_typed _ _ _ _ _ _ he
        | ok hnd =>
            cases hv : get_block_validate b with
            | error e =>
                simpa [excTyped] using get_block_validate_err_typed b e hv
            | ok p =>
                repeat' split
                all_goals simp_all [excTyped, PyExc.isTyped]
  · intro inst conn curW3 clientId csum ca fn abi http build hasFn call
    unfold read_contract
    cases he : ensureW3Conn inst conn curW3 "Monad RPC connection not available." with
    | mk w3' r =>
        cases r with
        | error e => simpa [excTyped] using ensureW3Conn_err_typed _ _ _ _ _ _ he
        | ok hnd =>
            repeat' split
            all_goals simp_all
  · intro clientId inst csum ca http
    unfold get_abi_from_insight
    repeat' split
    all_goals simp_all
  · intro clientId inst csum addr limit page sortOrder ts http
    unfold get_transaction_history
    repeat' split
    all_goals simp_all
  · intro meKey limit period sortBy http
    unfold get_trending_collections
    repeat' split
    all_goals simp_all
  · intro meKey inst curW3 csum ua l http
    unfold get_user_nft_activity
    cases meKey with
    | none => simp [excTyped, PyExc.isTyped]
    | some k =>
        cases he : ensureW3Plain inst curW3
            "Web3 connection not available for address validation." with
        | mk w3' r =>
            cases r with
            | error e => simpa [excTyped] using ensureW3Plain_err_typed _ _ _ _ _ he
            | ok hnd =>
                repeat' split
                all_goals simp_all
  · intro meKey inst curW3 csum ca ti http fuel
    unfold get_nft_activity
    cases meKey with
    | none => simp [optExcTyped, PyExc.isTyped]
    | some k =>
        cases he : ensureW3Plain inst curW3
            "Web3 connection not available for address validation." with
        | mk w3' r =>
            cases r with
            | error e =>
                simpa [optExcTyped] using ensureW3Plain_err_typed _ _ _ _ _ he
            | ok hnd =>
                repeat' split
                all_goals simp_all
  · intro meKey inst csum wa http fuel
    unfold get_nft_collection_stats
    repeat' split
    all_goals simp_all
  · intro inst conn curW3 zk csum wa http code fuel
    unfold get_contract_interactions
    cases he : ensureW3Conn inst conn curW3 "Monad RPC connection needed." with
    | mk w3' r =>
        cases r with
        | error e => simpa [optExcTyped] using ensureW3Conn_err_typed _ _ _ _ _ _ he
        | ok hnd =>
            cases zk with
            | none => simp [optExcTyped, PyExc.isTyped]
            | some z =>
                cases hcs : csum wa with
                | none => simp [optExcTyped, PyExc.isTyped]
                | some caddr =>
                    cases hloop : zerionInteractionsLoop http fuel 0 Option.none [] 0 with
                    | none => simp [optExcTyped]
                    | some res =>
                        cases res with
                        | error e =>
                            have h := zerionInteractionsLoop_typed http fuel 0
                              Option.none [] 0
                            rw [hloop] at h
                            simp only [optExcTyped] at h
                            simp [optExcTyped, h]
                        | ok pr => simp [optExcTyped]
  · intro zk inst curW3 csum ua http fuel
    unfold get_user_nft_transactions
    cases zk with
    | none => simp [optExcTyped, PyExc.isTyped]
    | some z =>
        cases he : ensureW3Plain inst curW3
            "Web3 connection not available for address validation." with
        | mk w3' r =>
            cases r with
            | error e =>
                simpa [optExcTyped] using ensureW3Plain_err_typed _ _ _ _ _ he
            | ok hnd =>
                repeat' split
                all_goals simp_all
  · intro zk inst csum addr http fuel
    unfold get_monad_erc20_balances
    cases zk with
    | none => simp [optExcTypedOrAttr, PyExc.isTyped]
    | some z =>
        cases inst with
        | none => simp [get_w3, optExcTypedOrAttr, PyExc.isTyped]
        | some hnd =>
            cases hcs : csum addr with
            | none => simp [get_w3, hcs, optExcTypedOrAttr, PyExc.isTyped]
            | some caddr =>
                simp only [get_w3, hcs]
                cases hloop : zerionPositionsLoop http fuel 0 [] with
                | none => simp [optExcTypedOrAttr]
                | some res =>
                    cases res with
                    | error e =>
                        have h := zerionPositionsLoop_typed http fuel 0 []
                        rw [hloop] at h
                        simp only [optExcTyped] at h
                        simpa using optOrAttr_of_typed e h
                    | ok tokens =>
                        simpa using optOrAttr_of_attrClass _ (sortTokensByName_attrClass tokens)

end MonadMCP
